import Mathlib

/-!
# rose-png: `Png::load` and `Png::write` (include/rose/png.hpp)

A shallow embedding of the two adapter functions of `rose::Png`.

* Machine integers are natural numbers reduced explicitly: `png_uint_32` is
  reduced modulo `2^32`, `size_t` modulo `2^64` (an LP64 target).
* Addresses are natural numbers; memory is a function from addresses to bytes.
* The file system, the allocator and the codec (libpng) are the environment:
  each run of `load` or `write` is a function of a *world* that fixes what the
  environment answers, and it returns its result together with the trace of
  the calls it made.
* An error of the codec is a jump to the recovery boundary set with `setjmp`;
  the handler sees in `rows` and `data` the values last stored there.
* `new[]` always returns a block.
-/

namespace rose

/-! ## Machine integers -/

/-- Conversion to `png_uint_32` (an unsigned 32-bit integer). -/
def u32 (n : Nat) : Nat := n % 2 ^ 32

/-- Conversion to `size_t` (an unsigned 64-bit integer). -/
def usize (n : Nat) : Nat := n % 2 ^ 64

/-- Subtraction of two `size_t` values, wrapping as unsigned arithmetic does. -/
def usize_sub (a b : Nat) : Nat := usize (usize a + 2 ^ 64 - usize b)

/-- Multiplication of two `size_t` values, wrapping as unsigned arithmetic does. -/
def usize_mul (a b : Nat) : Nat := usize (usize a * usize b)

/-- A byte of pixel data. -/
abbrev Byte := Nat

/-- Memory: the byte stored at each address. -/
abbrev Memory := Nat → Byte

/-! ## The row-pointer table (png.hpp lines 95-101 and 168-174) -/

/-- The statement `png_uint_32 row = (height - i - 1) * rowbytes;` of both
loops: the operands are `size_t`, the product is stored in a `png_uint_32`. -/
def row_offset (height rowbytes i : Nat) : Nat :=
  u32 (usize_mul (usize_sub (usize_sub height i) 1) rowbytes)

/-- The loop `for (size_t i = 0; i < height; ++i) rows[i] = data + row;`:
the table has `height` entries, entry `i` is the address `data + row`. -/
def row_table (data height rowbytes : Nat) : List Nat :=
  (List.range height).map (fun i => data + row_offset height rowbytes i)

/-- The size in bytes passed to `new uint8_t[height * rowbytes]` in `load`. -/
def data_size (height rowbytes : Nat) : Nat := usize_mul height rowbytes

/-! ## Formats, bitmaps, results, errors -/

/-- Modelled from the spec: `bitmap::Fmt`, declared in rose/bitmap.hpp, which is
not among the sources. The spec names the two variants `RGB` and `RGBA`; as the
type is an enumeration, a value outside the two enumerators can be formed by a
cast, and `other` stands for such a value. -/
inductive Fmt where
  | RGB
  | RGBA
  | other (tag : Nat)
  deriving DecidableEq, Repr

/-- Modelled from the spec: `bytes_per_pixel(format)`, 3 for RGB and 4 for RGBA
(spec section 3); the spec gives no value for another format. -/
def bytes_per_pixel : Fmt → Nat
  | .RGB => 3
  | .RGBA => 4
  | .other _ => 0

/-- Modelled from the spec: `Bitmap<FMT>`, declared in rose/bitmap.hpp, which is
not among the sources: built from `{width, height, pixel buffer}`, with the
accessors `width()`, `height()`, `format()`, `data()`. The field `d` is the
address of the pixel buffer. -/
structure Bitmap (FMT : Fmt) where
  width : Nat
  height : Nat
  d : Nat
  deriving DecidableEq, Repr

/-- Accessor `format()`: the format is the template argument. -/
def Bitmap.format {FMT : Fmt} (_b : Bitmap FMT) : Fmt := FMT

/-- Accessor `data()`. -/
def Bitmap.data {FMT : Fmt} (b : Bitmap FMT) : Nat := b.d

/-- Modelled from the spec: `Result<T, E>`, declared in rose/result.hpp, which
is not among the sources: either a value (`ok`) or one error kind (`err`). -/
inductive Result (T E : Type) where
  | ok (v : T)
  | err (e : E)
  deriving DecidableEq, Repr

/-- The enumeration `Png::Error` (png.hpp lines 12-18). -/
inductive Error where
  | FILE_OPEN_ERR
  | PNG_INTERNAL_ERR
  | PNG_LOAD_ERR
  | PNG_WRITE_ERR
  | INVALID_FORMAT_ERR
  deriving DecidableEq, Repr

/-! ## The codec (libpng 1.6), as far as the adapters use it -/

def PNG_COLOR_MASK_PALETTE : Nat := 1
def PNG_COLOR_MASK_COLOR : Nat := 2
def PNG_COLOR_MASK_ALPHA : Nat := 4
def PNG_COLOR_TYPE_GRAY : Nat := 0
def PNG_COLOR_TYPE_PALETTE : Nat := 3
def PNG_COLOR_TYPE_RGB : Nat := 2
def PNG_COLOR_TYPE_RGB_ALPHA : Nat := 6
def PNG_COLOR_TYPE_GRAY_ALPHA : Nat := 4
def PNG_COLOR_TYPE_RGBA : Nat := PNG_COLOR_TYPE_RGB_ALPHA
def PNG_INTERLACE_NONE : Nat := 0
def PNG_COMPRESSION_TYPE_BASE : Nat := 0
def PNG_FILTER_TYPE_BASE : Nat := 0
def PNG_FILLER_AFTER : Nat := 1
def PNG_BACKGROUND_GAMMA_SCREEN : Nat := 1
def PNG_USER_WIDTH_MAX : Nat := 1000000
def PNG_USER_HEIGHT_MAX : Nat := 1000000
def PNG_UINT_31_MAX : Nat := 2147483647

/-- What a PNG stream declares about its image: the IHDR fields the adapters
look at, and the number of entries of its tRNS chunk (0 when it has none). -/
structure png_header where
  width : Nat
  height : Nat
  bit_depth : Nat
  color_type : Nat
  num_trans : Nat
  deriving DecidableEq, Repr

/-- Modelled from the spec: the fields of the codec's metadata state
(`png_info`) that the calls made by the adapters read or write; libpng is an
external collaborator, not part of the sources. -/
structure png_info where
  width : Nat
  height : Nat
  bit_depth : Nat
  color_type : Nat
  num_trans : Nat
  channels : Nat
  rowbytes : Nat
  deriving DecidableEq, Repr

/-- The metadata state right after `png_create_info_struct`. -/
def png_info.zero : png_info := ⟨0, 0, 0, 0, 0, 0, 0⟩

/-- Modelled from the spec: the transformation flags of the codec's read state
that the calls made by `load` set (libpng `png_struct.transformations`). -/
structure png_transforms where
  PNG_16_TO_8 : Bool
  PNG_EXPAND : Bool
  PNG_EXPAND_tRNS : Bool
  PNG_GRAY_TO_RGB : Bool
  PNG_FILLER : Bool
  PNG_COMPOSE : Bool
  PNG_STRIP_ALPHA : Bool
  deriving DecidableEq, Repr

/-- No transformation declared. -/
def png_transforms.none : png_transforms := ⟨false, false, false, false, false, false, false⟩

/-- Modelled from the spec: libpng macro `PNG_ROWBYTES(pixel_bits, width)`, the
number of bytes of a row of `width` pixels of `pixel_bits` bits each, computed
in `size_t`. -/
def PNG_ROWBYTES (pixel_bits width : Nat) : Nat :=
  if pixel_bits ≥ 8 then usize_mul width (pixel_bits >>> 3)
  else usize (usize_mul width pixel_bits + 7) >>> 3

/-- Modelled from the spec: the number of channels libpng assigns to a colour
type when a header is set (`png_set_IHDR`). -/
def png_channels (color_type : Nat) : Nat :=
  if color_type = PNG_COLOR_TYPE_GRAY ∨ color_type = PNG_COLOR_TYPE_PALETTE then 1
  else if color_type = PNG_COLOR_TYPE_RGB then 3
  else if color_type = PNG_COLOR_TYPE_GRAY_ALPHA then 2
  else if color_type = PNG_COLOR_TYPE_RGB_ALPHA then 4
  else 0

/-- Modelled from the spec: libpng `png_check_IHDR`, the test a header has to
pass in `png_read_info` and in `png_set_IHDR` (an error is raised otherwise):
dimensions nonzero and within the library limits, a bit depth and a colour type
that PNG allows together. -/
def png_check_IHDR (width height bit_depth color_type : Nat) : Bool :=
  decide (width ≠ 0 ∧ width ≤ PNG_UINT_31_MAX ∧ width ≤ PNG_USER_WIDTH_MAX) &&
  decide (height ≠ 0 ∧ height ≤ PNG_UINT_31_MAX ∧ height ≤ PNG_USER_HEIGHT_MAX) &&
  decide (bit_depth = 1 ∨ bit_depth = 2 ∨ bit_depth = 4 ∨ bit_depth = 8 ∨ bit_depth = 16) &&
  decide (color_type = 0 ∨ color_type = 2 ∨ color_type = 3 ∨ color_type = 4 ∨ color_type = 6) &&
  !(decide (color_type = PNG_COLOR_TYPE_PALETTE ∧ bit_depth > 8)) &&
  !(decide ((color_type = PNG_COLOR_TYPE_RGB ∨ color_type = PNG_COLOR_TYPE_GRAY_ALPHA ∨
      color_type = PNG_COLOR_TYPE_RGB_ALPHA) ∧ bit_depth < 8))

/-- Modelled from the spec: libpng `png_set_IHDR`, which fills the metadata
state from the header arguments. -/
def png_set_IHDR (info : png_info) (width height bit_depth color_type : Nat) : png_info :=
  { info with
    width := width, height := height, bit_depth := bit_depth, color_type := color_type,
    channels := png_channels color_type,
    rowbytes := PNG_ROWBYTES ((png_channels color_type * bit_depth) % 256) width }

/-- Modelled from the spec: what `png_read_info` leaves in the metadata state
for a stream with the given header. -/
def png_read_info (hd : png_header) : png_info :=
  { png_set_IHDR png_info.zero hd.width hd.height hd.bit_depth hd.color_type with
    num_trans := hd.num_trans }

/-- Modelled from the spec: libpng `png_set_strip_16` ("reduce 16-bit samples to 8-bit"). -/
def png_set_strip_16 (xf : png_transforms) : png_transforms :=
  { xf with PNG_16_TO_8 := true }

/-- Modelled from the spec: libpng `png_set_palette_to_rgb` ("convert palette
colour to direct RGB"). -/
def png_set_palette_to_rgb (xf : png_transforms) : png_transforms :=
  { xf with PNG_EXPAND := true, PNG_EXPAND_tRNS := true }

/-- Modelled from the spec: libpng `png_set_gray_to_rgb` ("convert grayscale to
RGB"); it also asks for the expansion of 1, 2 and 4 bit gray to 8 bit. -/
def png_set_gray_to_rgb (xf : png_transforms) : png_transforms :=
  { xf with PNG_EXPAND := true, PNG_GRAY_TO_RGB := true }

/-- Modelled from the spec: libpng `png_set_tRNS_to_alpha` ("convert the
transparency key to a real alpha channel"). -/
def png_set_tRNS_to_alpha (xf : png_transforms) : png_transforms :=
  { xf with PNG_EXPAND := true, PNG_EXPAND_tRNS := true }

/-- Modelled from the spec: libpng `png_set_filler` on a read state ("append a
constant byte to channel triples that lack a fourth"). -/
def png_set_filler (xf : png_transforms) : png_transforms :=
  { xf with PNG_FILLER := true }

/-- Modelled from the spec: libpng `png_set_background` ("composite any alpha
channel against a background colour, removing alpha"). -/
def png_set_background (xf : png_transforms) : png_transforms :=
  { xf with PNG_COMPOSE := true, PNG_STRIP_ALPHA := true }

/-- Modelled from the spec: libpng `png_read_transform_info`, run by
`png_read_update_info`: the metadata after the declared transformations
("recompute the codec's derived metadata after declaring all transforms").
`num_trans` is the read state's count of tRNS entries. -/
def png_read_transform_info (xf : png_transforms) (num_trans : Nat) (info : png_info) :
    png_info :=
  let info :=
    if xf.PNG_EXPAND then
      if info.color_type = PNG_COLOR_TYPE_PALETTE then
        { info with
          color_type := if num_trans > 0 then PNG_COLOR_TYPE_RGB_ALPHA else PNG_COLOR_TYPE_RGB,
          bit_depth := 8, num_trans := 0 }
      else
        let info :=
          if num_trans ≠ 0 ∧ xf.PNG_EXPAND_tRNS then
            { info with color_type := info.color_type ||| PNG_COLOR_MASK_ALPHA }
          else info
        let info := if info.bit_depth < 8 then { info with bit_depth := 8 } else info
        { info with num_trans := 0 }
    else info
  let info :=
    if info.bit_depth = 16 ∧ xf.PNG_16_TO_8 then { info with bit_depth := 8 } else info
  let info :=
    if xf.PNG_GRAY_TO_RGB then
      { info with color_type := info.color_type ||| PNG_COLOR_MASK_COLOR }
    else info
  let info :=
    if info.color_type = PNG_COLOR_TYPE_PALETTE then { info with channels := 1 }
    else if info.color_type &&& PNG_COLOR_MASK_COLOR ≠ 0 then { info with channels := 3 }
    else { info with channels := 1 }
  let info :=
    if xf.PNG_STRIP_ALPHA then
      { info with color_type := info.color_type &&& (255 - PNG_COLOR_MASK_ALPHA), num_trans := 0 }
    else info
  let info :=
    if info.color_type &&& PNG_COLOR_MASK_ALPHA ≠ 0 then
      { info with channels := info.channels + 1 }
    else info
  let info :=
    if xf.PNG_FILLER ∧
        (info.color_type = PNG_COLOR_TYPE_RGB ∨ info.color_type = PNG_COLOR_TYPE_GRAY) then
      { info with channels := info.channels + 1 }
    else info
  { info with rowbytes := PNG_ROWBYTES ((info.channels * info.bit_depth) % 256) info.width }

/-- Write `n` bytes of `row` to memory, starting at address `addr`. -/
def write_row (mem : Memory) (addr n : Nat) (row : Nat → Byte) : Memory :=
  fun p => if addr ≤ p ∧ p < addr + n then row (p - addr) else mem p

/-- Modelled from the spec: the rows `0 .. k-1` of the image, in this order,
each stored through its entry of the row-pointer table ("decode all rows into
the supplied row-pointer table"); `image i j` is byte `j` of row `i`, rows
counted from the top. -/
def png_read_rows (rows : List Nat) (image : Nat → Nat → Byte) (rowbytes : Nat) :
    Nat → Memory → Memory
  | 0, mem => mem
  | k + 1, mem =>
    write_row (png_read_rows rows image rowbytes k mem) (rows.getD k 0) rowbytes (image k)

/-- Modelled from the spec: libpng `png_read_image`, which delivers all
`info.height` rows of `info.rowbytes` bytes. -/
def png_read_image (info : png_info) (rows : List Nat) (image : Nat → Nat → Byte)
    (mem : Memory) : Memory :=
  png_read_rows rows image info.rowbytes info.height mem

/-- Modelled from the spec: libpng `png_write_image` ("write all image rows"):
row `i` of the stream, counted from the top, is the `info.rowbytes` bytes found
at entry `i` of the row-pointer table. -/
def png_write_image (rows : List Nat) (mem : Memory) : Nat → Nat → Byte :=
  fun i j => mem (rows.getD i 0 + j)

/-! ## Traces -/

/-- The mode string of `fopen`. -/
inductive Mode where
  | rb
  | wb
  deriving DecidableEq, Repr

/-- What a call may hold and has to give back: the file handle, the codec's
read or write state, the codec's metadata state, the row-pointer table and the
pixel buffer. -/
inductive Resource where
  | file
  | png_struct
  | info
  | rows
  | data
  deriving DecidableEq, Repr

/-- The codec functions the adapters call, with the arguments the claims speak of. -/
inductive PngCall where
  | create_read_struct
  | create_write_struct
  | create_info_struct
  | destroy_read_struct
  | destroy_write_struct
  | init_io
  | read_info
  | get_color_type
  | get_image_width
  | get_image_height
  | set_strip_16
  | set_palette_to_rgb
  | set_gray_to_rgb
  | get_valid
  | set_tRNS_to_alpha
  | set_filler (filler flags : Nat)
  | set_background (red green blue gamma_code need_expand : Nat)
  | read_update_info
  | get_rowbytes
  | read_image
  | set_IHDR (width height bit_depth color_type interlace compression filter : Nat)
  | write_info
  | write_image
  | write_end
  deriving DecidableEq, Repr

/-- One step of a run, as seen from outside. -/
inductive Event where
  | fopen (mode : Mode)
  | fclose
  | png (c : PngCall)
  | acquire (r : Resource)
  | release (r : Resource)
  | longjmp
  deriving DecidableEq, Repr

/-- A run in progress: the trace so far and the local variables. -/
structure Run (σ : Type) where
  trace : List Event
  vars : σ

/-- Append events to the trace. -/
def Run.log {σ : Type} (s : Run σ) (es : List Event) : Run σ :=
  { s with trace := s.trace ++ es }

/-- Change the local variables. -/
def Run.upd {σ : Type} (s : Run σ) (f : σ → σ) : Run σ :=
  { s with vars := f s.vars }

/-- A codec call that raises no error (it stores or fetches a field, or frees). -/
def Run.note {σ : Type} (s : Run σ) (c : PngCall) : Run σ :=
  s.log [.png c]

/-- A codec call that may raise an error: when it does (`fails`), libpng jumps
to the recovery boundary set by `setjmp(png_jmpbuf(..))` and the run continues
in the handler, the local variables being what they were at the call. Otherwise
the call has its effect `f` on the variables. -/
def Run.call {σ : Type} (s : Run σ) (fails : Bool) (c : PngCall) (f : σ → σ) :
    Except (Run σ) (Run σ) :=
  if fails then .error (s.log [.png c, .longjmp])
  else .ok ((s.log [.png c]).upd f)

/-- The resources live after one more event, starting from `live`; `none` when
the event acquires a resource that is live or releases one that is not. -/
def ledger_step (live : List Resource) : Event → Option (List Resource)
  | .acquire r => if r ∈ live then none else some (r :: live)
  | .release r => if r ∈ live then some (live.erase r) else none
  | _ => some live

/-- The resources live after a trace, starting from `live`. -/
def ledger : List Event → List Resource → Option (List Resource)
  | [], live => some live
  | e :: es, live =>
    match ledger_step live e with
    | none => none
    | some live1 => ledger es live1

/-- The codec calls of a trace. -/
def png_calls (t : List Event) : List PngCall :=
  t.filterMap (fun e => match e with | .png c => some c | _ => none)

/-! ## `Png::load` (png.hpp lines 20-110) -/

/-- The environment of one call of `load`. -/
structure LoadWorld where
  /-- whether `fopen(filename, "rb")` returns a handle -/
  fopen_ok : Bool
  /-- whether `png_create_read_struct` returns a state -/
  read_struct_ok : Bool
  /-- whether `png_create_info_struct` returns a state -/
  info_struct_ok : Bool
  /-- the codec calls in which the codec raises an error -/
  fails : PngCall → Bool
  /-- the header of the stream -/
  stream : png_header
  /-- the rows the codec delivers, from the top: `image i j` is byte `j` of row `i` -/
  image : Nat → Nat → Byte
  /-- the address `new uint8_t[..]` returns -/
  data_addr : Nat
  /-- memory before the call; a fresh buffer holds whatever was there -/
  mem : Memory

/-- The local variables of `load`, the codec's read state (its transformation
flags) and metadata state, and memory. -/
structure LoadVars where
  reader : png_transforms
  info : png_info
  color_type : Nat
  width : Nat
  height : Nat
  rowbytes : Nat
  rows : Option (List Nat)
  data : Option Nat
  mem : Memory

/-- What a call of `load` leaves: the value returned and the final run. -/
structure LoadOutcome (FMT : Fmt) where
  result : Result (Bitmap FMT) Error
  final : Run LoadVars

/-- Lines 53-89 of png.hpp: the header is read and the transformations are
declared. An error raised by the codec ends the run with `Except.error`;
`png_read_info` raises one when the world says so or when the header of the
stream does not pass `png_check_IHDR`. -/
def load.negotiate (FMT : Fmt) (w : LoadWorld) (s : Run LoadVars) :
    Except (Run LoadVars) (Run LoadVars) := do
  -- png_init_io(reader, file);
  let s := s.note .init_io
  -- png_read_info(reader, info);
  let s ← s.call
    (w.fails .read_info ||
      !png_check_IHDR w.stream.width w.stream.height w.stream.bit_depth w.stream.color_type)
    .read_info (fun v => { v with info := png_read_info w.stream })
  -- png_int_32 color_type = png_get_color_type(reader, info);
  let color_type := s.vars.info.color_type
  let s := (s.note .get_color_type).upd (fun v => { v with color_type := color_type })
  -- size_t width = png_get_image_width(reader, info);
  let s := (s.note .get_image_width).upd (fun v => { v with width := usize (u32 v.info.width) })
  -- size_t height = png_get_image_height(reader, info);
  let s := (s.note .get_image_height).upd (fun v => { v with height := usize (u32 v.info.height) })
  -- png_set_strip_16(reader);
  let s ← s.call (w.fails .set_strip_16) .set_strip_16
    (fun v => { v with reader := png_set_strip_16 v.reader })
  -- if (color_type == PNG_COLOR_TYPE_PALETTE) png_set_palette_to_rgb(reader);
  let s ←
    (if color_type = PNG_COLOR_TYPE_PALETTE then
      s.call (w.fails .set_palette_to_rgb) .set_palette_to_rgb
        (fun v => { v with reader := png_set_palette_to_rgb v.reader })
    else pure s)
  -- if (color_type == PNG_COLOR_TYPE_GRAY || color_type == PNG_COLOR_TYPE_GRAY_ALPHA)
  --   png_set_gray_to_rgb(reader);
  let s ←
    (if color_type = PNG_COLOR_TYPE_GRAY ∨ color_type = PNG_COLOR_TYPE_GRAY_ALPHA then
      s.call (w.fails .set_gray_to_rgb) .set_gray_to_rgb
        (fun v => { v with reader := png_set_gray_to_rgb v.reader })
    else pure s)
  -- if (png_get_valid(reader, info, PNG_INFO_tRNS)) png_set_tRNS_to_alpha(reader);
  let s := s.note .get_valid
  let s ←
    (if s.vars.info.num_trans ≠ 0 then
      s.call (w.fails .set_tRNS_to_alpha) .set_tRNS_to_alpha
        (fun v => { v with reader := png_set_tRNS_to_alpha v.reader })
    else pure s)
  -- if (FMT == bitmap::Fmt::RGBA) png_set_filler(reader, 0xff, PNG_FILLER_AFTER);
  let s ←
    (if FMT = Fmt.RGBA then
      s.call (w.fails (.set_filler 255 PNG_FILLER_AFTER)) (.set_filler 255 PNG_FILLER_AFTER)
        (fun v => { v with reader := png_set_filler v.reader })
    else pure s)
  -- if (FMT == bitmap::Fmt::RGB) { white = {255, 255, 255};
  --   png_set_background(reader, &white, PNG_BACKGROUND_GAMMA_SCREEN, 0, 1.0); }
  let s ←
    (if FMT = Fmt.RGB then
      s.call (w.fails (.set_background 255 255 255 PNG_BACKGROUND_GAMMA_SCREEN 0))
        (.set_background 255 255 255 PNG_BACKGROUND_GAMMA_SCREEN 0)
        (fun v => { v with reader := png_set_background v.reader })
    else pure s)
  -- png_read_update_info(reader, info);
  let s ← s.call (w.fails .read_update_info) .read_update_info
    (fun v => { v with info := png_read_transform_info v.reader w.stream.num_trans v.info })
  -- png_uint_32 rowbytes = png_get_rowbytes(reader, info);
  let s := (s.note .get_rowbytes).upd (fun v => { v with rowbytes := u32 v.info.rowbytes })
  pure s

/-- Lines 91-109 of png.hpp: the buffers are allocated, the row-pointer table
is filled, the image is read and the bitmap returned. -/
def load.decode (FMT : Fmt) (w : LoadWorld) (s : Run LoadVars) :
    Except (Run LoadVars) (Run LoadVars × Bitmap FMT) := do
  -- rows = new png_bytep[height];
  let s := (s.log [.acquire .rows]).upd
    (fun v => { v with rows := some (List.replicate v.height 0) })
  -- data = new uint8_t[height * rowbytes];
  let s := (s.log [.acquire .data]).upd (fun v => { v with data := some w.data_addr })
  -- for (size_t i = 0; i < height; ++i) { row = (height - i - 1) * rowbytes;
  --   rows[i] = data + row; }
  let s := s.upd (fun v => { v with rows := some (row_table w.data_addr v.height v.rowbytes) })
  -- png_read_image(reader, rows);
  let s ← s.call (w.fails .read_image) .read_image
    (fun v => { v with mem := png_read_image v.info (v.rows.getD []) w.image v.mem })
  -- png_destroy_read_struct(&reader, &info, nullptr);
  let s := (s.note .destroy_read_struct).log [.release .info, .release .png_struct]
  -- delete[] rows;
  let s := s.log [.release .rows]
  -- fclose(file);
  let s := s.log [.fclose, .release .file]
  -- return Result<Bitmap<FMT>, Error>::ok({width, height, data});
  pure (s, ⟨s.vars.width, s.vars.height, s.vars.data.getD 0⟩)

/-- Lines 53-109 of png.hpp: the part of `load` that runs after `setjmp`
returned 0. -/
def load.guarded (FMT : Fmt) (w : LoadWorld) (s : Run LoadVars) :
    Except (Run LoadVars) (Run LoadVars × Bitmap FMT) := do
  let s ← load.negotiate FMT w s
  load.decode FMT w s

/-- Lines 44-51 of png.hpp: the handler, entered when `setjmp` returns nonzero. -/
def load.recover (s : Run LoadVars) : Run LoadVars :=
  -- png_destroy_read_struct(&reader, &info, nullptr);
  let s := (s.note .destroy_read_struct).log [.release .info, .release .png_struct]
  -- if (rows != nullptr) delete[] rows;
  let s := if s.vars.rows.isSome then s.log [.release .rows] else s
  -- if (data != nullptr) delete[] data;
  let s := if s.vars.data.isSome then s.log [.release .data] else s
  -- fclose(file);
  s.log [.fclose, .release .file]

/-- The function `Png::load<FMT>` (png.hpp lines 20-110). -/
def load (FMT : Fmt) (w : LoadWorld) : LoadOutcome FMT :=
  let s : Run LoadVars :=
    ⟨[], ⟨png_transforms.none, png_info.zero, 0, 0, 0, 0, none, none, w.mem⟩⟩
  -- FILE* file = fopen(filename, "rb"); if (!file) return err(FILE_OPEN_ERR);
  let s := s.log [.fopen .rb]
  if w.fopen_ok = false then ⟨.err .FILE_OPEN_ERR, s⟩ else
  let s := s.log [.acquire .file]
  -- png_structp reader = png_create_read_struct(..);
  -- if (!reader) { fclose(file); return err(PNG_INTERNAL_ERR); }
  let s := s.note .create_read_struct
  if w.read_struct_ok = false then
    ⟨.err .PNG_INTERNAL_ERR, s.log [.fclose, .release .file]⟩ else
  let s := s.log [.acquire .png_struct]
  -- png_infop info = png_create_info_struct(reader);
  -- if (!info) { png_destroy_read_struct(&reader, nullptr, nullptr); fclose(file);
  --   return err(PNG_INTERNAL_ERR); }
  let s := s.note .create_info_struct
  if w.info_struct_ok = false then
    ⟨.err .PNG_INTERNAL_ERR,
      ((s.note .destroy_read_struct).log [.release .png_struct]).log [.fclose, .release .file]⟩
  else
  let s := s.log [.acquire .info]
  -- png_bytep* rows = nullptr; uint8_t* data = nullptr;
  let s := s.upd (fun v => { v with rows := none, data := none })
  -- if (setjmp(png_jmpbuf(reader))) { handler; return err(PNG_LOAD_ERR); }
  match load.guarded FMT w s with
  | .error s => ⟨.err .PNG_LOAD_ERR, load.recover s⟩
  | .ok (s, b) => ⟨.ok b, s⟩

/-- The trace of a call of `load`. -/
def LoadOutcome.trace {FMT : Fmt} (o : LoadOutcome FMT) : List Event := o.final.trace

/-- Memory after a call of `load`. -/
def LoadOutcome.mem {FMT : Fmt} (o : LoadOutcome FMT) : Memory := o.final.vars.mem

/-! ## `Png::write` (png.hpp lines 117-184) -/

/-- The content of a destination file, as far as the codec has produced it:
the header written by `png_write_info`, the rows written by `png_write_image`
(`image i j` is byte `j` of row `i`, rows from the top), and whether
`png_write_end` has closed the stream. -/
structure PngFile where
  header : Option png_header
  image : Nat → Nat → Byte
  ended : Bool

/-- The file `fopen(filename, "wb")` leaves: created or truncated, empty. -/
def PngFile.empty : PngFile := ⟨none, fun _ _ => 0, false⟩

/-- The environment of one call of `write`. -/
structure WriteWorld where
  /-- whether `fopen(filename, "wb")` returns a handle -/
  fopen_ok : Bool
  /-- whether `png_create_write_struct` returns a state -/
  write_struct_ok : Bool
  /-- whether `png_create_info_struct` returns a state -/
  info_struct_ok : Bool
  /-- the codec calls in which the codec raises an error -/
  fails : PngCall → Bool
  /-- memory, which holds the pixels of the bitmap -/
  mem : Memory
  /-- the destination before the call (`none`: there is no such file) -/
  dest : Option PngFile

/-- The local variables of `write`, the codec's metadata state and the
destination file. -/
structure WriteVars where
  info : png_info
  color_type : Nat
  rowbytes : Nat
  rows : Option (List Nat)
  dest : Option PngFile

/-- What a call of `write` leaves: the value returned and the final run. -/
structure WriteOutcome where
  result : Result Unit Error
  final : Run WriteVars

/-- The header a stream gets from the metadata state (`png_write_info`). -/
def png_info.header (info : png_info) : png_header :=
  ⟨info.width, info.height, info.bit_depth, info.color_type, info.num_trans⟩

/-- The codec's effect on the destination file. -/
def WriteVars.emit (v : WriteVars) (f : PngFile → PngFile) : WriteVars :=
  { v with dest := v.dest.map f }

/-- Lines 149-183 of png.hpp: the part of `write` that runs after `setjmp`
returned 0. An error raised by the codec ends it with `Except.error`;
`png_set_IHDR` raises one when the world says so or when its arguments do not
pass `png_check_IHDR`. The arguments `bitmap.width()` and `bitmap.height()` are
converted to the `png_uint_32` parameters of `png_set_IHDR`. -/
def write.guarded {FMT : Fmt} (w : WriteWorld) (bitmap : Bitmap FMT) (s : Run WriteVars) :
    Except (Run WriteVars) (Run WriteVars × Result Unit Error) := do
  -- png_init_io(writer, file);
  let s := s.note .init_io
  -- png_int_32 color_type;
  -- if (bitmap.format() == bitmap::Fmt::RGB) color_type = PNG_COLOR_TYPE_RGB;
  -- else if (bitmap.format() == bitmap::Fmt::RGBA) color_type = PNG_COLOR_TYPE_RGBA;
  -- else return Result<void, Error>::err(Error::INVALID_FORMAT_ERR);
  if bitmap.format ≠ Fmt.RGB ∧ bitmap.format ≠ Fmt.RGBA then
    pure (s, .err .INVALID_FORMAT_ERR)
  else
  let color_type := if bitmap.format = Fmt.RGB then PNG_COLOR_TYPE_RGB else PNG_COLOR_TYPE_RGBA
  let s := s.upd (fun v => { v with color_type := color_type })
  -- png_set_IHDR(writer, info, bitmap.width(), bitmap.height(), 8, color_type,
  --   PNG_INTERLACE_NONE, PNG_COMPRESSION_TYPE_BASE, PNG_FILTER_TYPE_BASE);
  let ihdr := PngCall.set_IHDR (u32 bitmap.width) (u32 bitmap.height) 8 s.vars.color_type
    PNG_INTERLACE_NONE PNG_COMPRESSION_TYPE_BASE PNG_FILTER_TYPE_BASE
  let s ← s.call
    (w.fails ihdr || !png_check_IHDR (u32 bitmap.width) (u32 bitmap.height) 8 s.vars.color_type)
    ihdr
    (fun v =>
      { v with info := png_set_IHDR v.info (u32 bitmap.width) (u32 bitmap.height) 8 v.color_type })
  -- png_write_info(writer, info);
  let s ← s.call (w.fails .write_info) .write_info
    (fun v => v.emit (fun f => { f with header := some v.info.header }))
  -- rows = new png_bytep[bitmap.height()];
  let s := (s.log [.acquire .rows]).upd
    (fun v => { v with rows := some (List.replicate bitmap.height 0) })
  -- size_t rowbytes = png_get_rowbytes(writer, info);
  let s := (s.note .get_rowbytes).upd (fun v => { v with rowbytes := usize v.info.rowbytes })
  -- for (size_t i = 0; i < bitmap.height(); ++i) {
  --   row = (bitmap.height() - i - 1) * rowbytes; rows[i] = bitmap.data() + row; }
  let s := s.upd
    (fun v => { v with rows := some (row_table bitmap.data bitmap.height v.rowbytes) })
  -- png_write_image(writer, rows);
  let s ← s.call (w.fails .write_image) .write_image
    (fun v => v.emit (fun f => { f with image := png_write_image (v.rows.getD []) w.mem }))
  -- png_write_end(writer, nullptr);
  let s ← s.call (w.fails .write_end) .write_end
    (fun v => v.emit (fun f => { f with ended := true }))
  -- png_destroy_write_struct(&writer, &info);
  let s := (s.note .destroy_write_struct).log [.release .info, .release .png_struct]
  -- delete[] rows;
  let s := s.log [.release .rows]
  -- fclose(file);
  let s := s.log [.fclose, .release .file]
  -- return Result<void, Error>::ok();
  pure (s, .ok ())

/-- Lines 141-147 of png.hpp: the handler, entered when `setjmp` returns nonzero. -/
def write.recover (s : Run WriteVars) : Run WriteVars :=
  -- png_destroy_write_struct(&writer, &info);
  let s := (s.note .destroy_write_struct).log [.release .info, .release .png_struct]
  -- if (rows != NULL) delete[] rows;
  let s := if s.vars.rows.isSome then s.log [.release .rows] else s
  -- fclose(file);
  s.log [.fclose, .release .file]

/-- The function `Png::write<FMT>` (png.hpp lines 117-184). -/
def write {FMT : Fmt} (w : WriteWorld) (bitmap : Bitmap FMT) : WriteOutcome :=
  let s : Run WriteVars := ⟨[], ⟨png_info.zero, 0, 0, none, w.dest⟩⟩
  -- FILE *file = fopen(filename, "wb"); if (!file) return err(FILE_OPEN_ERR);
  let s := s.log [.fopen .wb]
  if w.fopen_ok = false then ⟨.err .FILE_OPEN_ERR, s⟩ else
  let s := (s.log [.acquire .file]).upd (fun v => { v with dest := some PngFile.empty })
  -- png_structp writer = png_create_write_struct(..);
  -- if (!writer) { fclose(file); return err(PNG_INTERNAL_ERR); }
  let s := s.note .create_write_struct
  if w.write_struct_ok = false then
    ⟨.err .PNG_INTERNAL_ERR, s.log [.fclose, .release .file]⟩ else
  let s := s.log [.acquire .png_struct]
  -- png_infop info = png_create_info_struct(writer);
  -- if (!info) { png_destroy_write_struct(&writer, nullptr); fclose(file);
  --   return err(PNG_INTERNAL_ERR); }
  let s := s.note .create_info_struct
  if w.info_struct_ok = false then
    ⟨.err .PNG_INTERNAL_ERR,
      ((s.note .destroy_write_struct).log [.release .png_struct]).log [.fclose, .release .file]⟩
  else
  let s := s.log [.acquire .info]
  -- png_bytep* rows = nullptr;
  let s := s.upd (fun v => { v with rows := none })
  -- if (setjmp(png_jmpbuf(writer))) { handler; return err(PNG_WRITE_ERR); }
  match write.guarded w bitmap s with
  | .error s => ⟨.err .PNG_WRITE_ERR, write.recover s⟩
  | .ok (s, r) => ⟨r, s⟩

/-- The trace of a call of `write`. -/
def WriteOutcome.trace (o : WriteOutcome) : List Event := o.final.trace

/-- The destination file after a call of `write`. -/
def WriteOutcome.dest (o : WriteOutcome) : Option PngFile := o.final.vars.dest

/-! ## Reading back what was written -/

/-- A world for `load` in which the source is the file `f`, the file opens,
both codec states are created, the codec raises no error of its own, and it
delivers the rows of `f` as they are. -/
def LoadWorld.reading (f : PngFile) (data_addr : Nat) (mem : Memory) : LoadWorld :=
  { fopen_ok := true, read_struct_ok := true, info_struct_ok := true,
    fails := fun _ => false,
    stream := f.header.getD ⟨0, 0, 0, 0, 0⟩,
    image := f.image, data_addr := data_addr, mem := mem }

/-- A world for `write` in which the destination opens, both codec states are
created and the codec raises no error of its own. -/
def WriteWorld.working (mem : Memory) (dest : Option PngFile) : WriteWorld :=
  { fopen_ok := true, write_struct_ok := true, info_struct_ok := true,
    fails := fun _ => false, mem := mem, dest := dest }

/-! ## Vocabulary of the proofs -/

/-- The outcome of a guarded part satisfies `Q` when it ends normally and `E`
when the codec raised an error. -/
def Triple {σ α : Type} (m : Except (Run σ) α) (Q : α → Prop) (E : Run σ → Prop) : Prop :=
  match m with
  | .ok a => Q a
  | .error e => E e

/-- The event of a codec call that is made only when `p` holds. -/
def seg (p : Prop) [Decidable p] (c : PngCall) : List Event :=
  if p then [.png c] else []

/-- Codec calls and the jump to the recovery boundary: events that neither
acquire nor release a resource, nor open or close a file. -/
def Event.inert : Event → Bool
  | .png _ => true
  | .longjmp => true
  | _ => false

/-- The trace of lines 53-89 of `load` when no call raises an error. -/
def load.negotiation (FMT : Fmt) (hd : png_header) : List Event :=
  [.png .init_io, .png .read_info, .png .get_color_type, .png .get_image_width,
    .png .get_image_height, .png .set_strip_16] ++
  seg (hd.color_type = PNG_COLOR_TYPE_PALETTE) .set_palette_to_rgb ++
  seg (hd.color_type = PNG_COLOR_TYPE_GRAY ∨ hd.color_type = PNG_COLOR_TYPE_GRAY_ALPHA)
    .set_gray_to_rgb ++
  [.png .get_valid] ++
  seg (hd.num_trans ≠ 0) .set_tRNS_to_alpha ++
  seg (FMT = Fmt.RGBA) (.set_filler 255 PNG_FILLER_AFTER) ++
  seg (FMT = Fmt.RGB) (.set_background 255 255 255 PNG_BACKGROUND_GAMMA_SCREEN 0) ++
  [.png .read_update_info, .png .get_rowbytes]

/-- The transformation flags `load` has set when it calls `png_read_update_info`. -/
def load.declared (FMT : Fmt) (hd : png_header) : png_transforms :=
  { PNG_16_TO_8 := true,
    PNG_EXPAND := decide (hd.color_type = PNG_COLOR_TYPE_PALETTE) ||
      decide (hd.color_type = PNG_COLOR_TYPE_GRAY ∨ hd.color_type = PNG_COLOR_TYPE_GRAY_ALPHA) ||
      decide (hd.num_trans ≠ 0),
    PNG_EXPAND_tRNS := decide (hd.color_type = PNG_COLOR_TYPE_PALETTE) ||
      decide (hd.num_trans ≠ 0),
    PNG_GRAY_TO_RGB :=
      decide (hd.color_type = PNG_COLOR_TYPE_GRAY ∨ hd.color_type = PNG_COLOR_TYPE_GRAY_ALPHA),
    PNG_FILLER := decide (FMT = Fmt.RGBA),
    PNG_COMPOSE := decide (FMT = Fmt.RGB),
    PNG_STRIP_ALPHA := decide (FMT = Fmt.RGB) }

/-- The metadata state `load` holds after `png_read_update_info`. -/
def load.updated (FMT : Fmt) (hd : png_header) : png_info :=
  png_read_transform_info (load.declared FMT hd) hd.num_trans (png_read_info hd)

/-- The variables of `load` at line 89, when no call raised an error. -/
def load.negotiated (FMT : Fmt) (hd : png_header) (v : LoadVars) : LoadVars :=
  { v with
    reader := load.declared FMT hd,
    info := load.updated FMT hd,
    color_type := hd.color_type,
    width := usize (u32 hd.width),
    height := usize (u32 hd.height),
    rowbytes := u32 (load.updated FMT hd).rowbytes }

/-- A state reached from `s` by an error of the codec: the events since `s`
neither acquire nor release, there is a jump among them, and the pointers
`rows` and `data` are those of `s`. -/
def Aborted {σ : Type} (rows data : σ → Bool) (s e : Run σ) : Prop :=
  ∃ t, e.trace = s.trace ++ t ∧ t.all Event.inert = true ∧ Event.longjmp ∈ t ∧
    rows e.vars = rows s.vars ∧ data e.vars = data s.vars

/-- The variables of `load` between `png_read_info` and `png_read_update_info`,
the transformation flags being `r`. -/
def load.midway (hd : png_header) (v : LoadVars) (r : png_transforms) : LoadVars :=
  { v with
    reader := r, info := png_read_info hd, color_type := hd.color_type,
    width := usize (u32 hd.width), height := usize (u32 hd.height) }

/-- The variables of `load` when it starts. -/
def load.start (w : LoadWorld) : LoadVars :=
  ⟨png_transforms.none, png_info.zero, 0, 0, 0, 0, none, none, w.mem⟩

/-- The trace of lines 22-42 of `load` when the file opens and both codec
states are created. -/
def load.opening : List Event :=
  [.fopen .rb, .acquire .file, .png .create_read_struct, .acquire .png_struct,
    .png .create_info_struct, .acquire .info]

/-- The variables of `load` when `png_read_image` is called. -/
def load.allocated (FMT : Fmt) (w : LoadWorld) : LoadVars :=
  { load.negotiated FMT w.stream (load.start w) with
    rows := some (row_table w.data_addr (usize (u32 w.stream.height))
      (u32 (load.updated FMT w.stream).rowbytes)),
    data := some w.data_addr }

/-- The variables of `load` when it returns a bitmap. -/
def load.decoded (FMT : Fmt) (w : LoadWorld) : LoadVars :=
  { load.allocated FMT w with
    mem := png_read_image (load.updated FMT w.stream)
      (row_table w.data_addr (usize (u32 w.stream.height))
        (u32 (load.updated FMT w.stream).rowbytes)) w.image w.mem }

/-- The events of the handler of `load` after an error raised before the
buffers were allocated. -/
def load.unwind_early : List Event :=
  [.png .destroy_read_struct, .release .info, .release .png_struct, .fclose, .release .file]

/-- The events of the handler of `load` after an error raised by `png_read_image`. -/
def load.unwind_late : List Event :=
  [.png .destroy_read_struct, .release .info, .release .png_struct, .release .rows,
    .release .data, .fclose, .release .file]

/-- The events of lines 91-109 of `load` when `png_read_image` returns. -/
def load.closing : List Event :=
  [.acquire .rows, .acquire .data, .png .read_image, .png .destroy_read_struct,
    .release .info, .release .png_struct, .release .rows, .fclose, .release .file]

/-! ## Sample inputs -/

/-- A world for `load`: every call succeeds; the stream is a 2 x 3 palette
image of 4 bits per pixel with a tRNS chunk; byte `j` of row `i` is `10 i + j`. -/
def sample_stream_world : LoadWorld :=
  { fopen_ok := true, read_struct_ok := true, info_struct_ok := true,
    fails := fun _ => false, stream := ⟨2, 3, 4, 3, 1⟩,
    image := fun i j => 10 * i + j, data_addr := 1000, mem := fun _ => 0 }

/-! ## Vocabulary for `write` -/

/-- The colour type `write` passes for a bitmap of format RGB or RGBA. -/
def write.color_type (FMT : Fmt) : Nat :=
  if FMT = Fmt.RGB then PNG_COLOR_TYPE_RGB else PNG_COLOR_TYPE_RGBA

/-- The call of `png_set_IHDR` `write` makes for a bitmap. -/
def write.ihdr {FMT : Fmt} (bitmap : Bitmap FMT) : PngCall :=
  .set_IHDR (u32 bitmap.width) (u32 bitmap.height) 8 (write.color_type FMT)
    PNG_INTERLACE_NONE PNG_COMPRESSION_TYPE_BASE PNG_FILTER_TYPE_BASE

/-- Whether the call of `png_set_IHDR` raises an error. -/
def write.ihdr_fails {FMT : Fmt} (w : WriteWorld) (bitmap : Bitmap FMT) : Bool :=
  w.fails (write.ihdr bitmap) ||
    !png_check_IHDR (u32 bitmap.width) (u32 bitmap.height) 8 (write.color_type FMT)

/-- The trace of lines 120-139 of `write` when the file opens and both codec
states are created. -/
def write.opening : List Event :=
  [.fopen .wb, .acquire .file, .png .create_write_struct, .acquire .png_struct,
    .png .create_info_struct, .acquire .info]

/-- The events of the handler of `write` after an error raised before the
row-pointer table was allocated. -/
def write.unwind_early : List Event :=
  [.png .destroy_write_struct, .release .info, .release .png_struct, .fclose, .release .file]

/-- The events of the handler of `write` after an error raised once the
row-pointer table was allocated. -/
def write.unwind_late : List Event :=
  [.png .destroy_write_struct, .release .info, .release .png_struct, .release .rows,
    .fclose, .release .file]

/-- The metadata state of `write` after `png_set_IHDR`. -/
def write.info {FMT : Fmt} (bitmap : Bitmap FMT) : png_info :=
  png_set_IHDR png_info.zero (u32 bitmap.width) (u32 bitmap.height) 8 (write.color_type FMT)

/-- The file a successful `write` leaves. -/
def write.file {FMT : Fmt} (w : WriteWorld) (bitmap : Bitmap FMT) : PngFile :=
  { header := some (write.info bitmap).header,
    image := png_write_image
      (row_table bitmap.data bitmap.height (usize (write.info bitmap).rowbytes)) w.mem,
    ended := true }

/-- Whether a codec call is `png_set_IHDR`. -/
def PngCall.is_set_IHDR : PngCall → Bool
  | .set_IHDR _ _ _ _ _ _ _ => true
  | _ => false

/-- A destination file that exists before a call of `write`: a complete stream. -/
def sample_old_file : PngFile :=
  { header := some ⟨1, 1, 8, 2, 0⟩, image := fun _ _ => 7, ended := true }

/-- A world for `write`: the destination exists and opens, both codec states
are created, the codec raises no error; memory holds the byte 1 everywhere. -/
def sample_write_world : WriteWorld :=
  WriteWorld.working (fun _ => 1) (some sample_old_file)

/-- A bitmap of a format that is neither RGB nor RGBA. -/
def sample_odd_bitmap : Bitmap (.other 0) := ⟨1, 1, 0⟩

/-- A 2 x 3 RGB bitmap whose pixel buffer is at address 500. -/
def sample_rgb_bitmap : Bitmap .RGB := ⟨2, 3, 500⟩

/-- An RGB bitmap of width `2^32 + 5` and height 1. -/
def wide_bitmap : Bitmap .RGB := ⟨4294967301, 1, 0⟩

/-- Modelled from the spec: byte `j` of row `k` of the pixel buffer of a
bitmap (rows of `width * bytes_per_pixel` bytes, row 0 first in memory, being
the bottom row of the picture; spec section 3). -/
def Bitmap.row_byte {FMT : Fmt} (b : Bitmap FMT) (mem : Memory) (k j : Nat) : Byte :=
  mem (b.data + k * (b.width * bytes_per_pixel FMT) + j)

/-- A stream of 16384 x 65537 pixels, 8-bit RGBA: rows of 65536 bytes. -/
def tall_header : png_header := ⟨16384, 65537, 8, 6, 0⟩

/-- A world for `load`: every call succeeds, the stream has the header
`tall_header`, every byte the codec delivers is 1, the pixel buffer is
allocated at address `2^40` and memory holds 0 everywhere before the call. -/
def tall_stream_world : LoadWorld :=
  { fopen_ok := true, read_struct_ok := true, info_struct_ok := true,
    fails := fun _ => false, stream := tall_header,
    image := fun _ _ => 1, data_addr := 2 ^ 40, mem := fun _ => 0 }

/-- A 16384 x 65537 RGBA bitmap whose pixel buffer is at address `2^33`. -/
def tall_bitmap : Bitmap .RGBA := ⟨16384, 65537, 2 ^ 33⟩

/-- Memory in which every byte of the pixel buffer of `tall_bitmap` is 1 and
every other byte is 0. -/
def tall_memory : Memory :=
  fun p => if 2 ^ 33 ≤ p ∧ p < 2 ^ 33 + 65537 * 65536 then 1 else 0

/-- The world in which `tall_bitmap` is written: the destination opens, both
codec states are created, the codec raises no error. -/
def tall_write_world : WriteWorld := WriteWorld.working tall_memory none

/-- The world in which the file written from `tall_bitmap` is read back, the
new pixel buffer being allocated at address `2^40`. -/
def tall_reload_world : LoadWorld :=
  LoadWorld.reading ((write tall_write_world tall_bitmap).dest.getD PngFile.empty)
    (2 ^ 40) tall_memory

/-! ### Lemmas on the table -/

theorem usize_of_lt {n : Nat} (h : n < 2 ^ 64) : usize n = n := by
  unfold usize; exact Nat.mod_eq_of_lt h

theorem u32_le (n : Nat) : u32 n ≤ n := by
  unfold u32; exact Nat.mod_le _ _

theorem usize_sub_of_le {a b : Nat} (ha : a < 2 ^ 64) (hb : b ≤ a) :
    usize_sub a b = a - b := by
  have hb2 : b < 2 ^ 64 := lt_of_le_of_lt hb ha
  unfold usize_sub
  rw [usize_of_lt ha, usize_of_lt hb2]
  unfold usize
  have : a + 2 ^ 64 - b = (a - b) + 2 ^ 64 := by omega
  rw [this, Nat.add_mod_right]
  exact Nat.mod_eq_of_lt (by omega)

theorem row_table_length (data height rowbytes : Nat) :
    (row_table data height rowbytes).length = height := by
  simp [row_table]

theorem row_table_get (data height rowbytes i : Nat) (hi : i < height) :
    (row_table data height rowbytes)[i]? = some (data + row_offset height rowbytes i) := by
  simp [row_table, List.getElem?_map, List.getElem?_range hi]

/-- Without wrap-around: the product the loop computes, before it is stored. -/
theorem row_product_exact {height rowbytes i : Nat} (hh : height < 2 ^ 32)
    (hr : rowbytes < 2 ^ 32) (hi : i < height) :
    usize_mul (usize_sub (usize_sub height i) 1) rowbytes = (height - i - 1) * rowbytes := by
  have h64 : (2 : Nat) ^ 32 < 2 ^ 64 := by norm_num
  have h1 : usize_sub height i = height - i :=
    usize_sub_of_le (by omega) (le_of_lt hi)
  have h2 : usize_sub (height - i) 1 = height - i - 1 :=
    usize_sub_of_le (by omega) (by omega)
  rw [h1, h2]
  unfold usize_mul
  have hk : height - i - 1 < 2 ^ 32 := by omega
  rw [usize_of_lt (by omega : height - i - 1 < 2 ^ 64), usize_of_lt (by omega : rowbytes < 2 ^ 64)]
  apply usize_of_lt
  calc (height - i - 1) * rowbytes < 2 ^ 32 * 2 ^ 32 := Nat.mul_lt_mul'' hk hr
    _ = 2 ^ 64 := by norm_num

theorem data_size_exact {height rowbytes : Nat} (hh : height < 2 ^ 32)
    (hr : rowbytes < 2 ^ 32) : data_size height rowbytes = height * rowbytes := by
  have h64 : (2 : Nat) ^ 32 < 2 ^ 64 := by norm_num
  unfold data_size usize_mul
  rw [usize_of_lt (by omega : height < 2 ^ 64), usize_of_lt (by omega : rowbytes < 2 ^ 64)]
  apply usize_of_lt
  calc height * rowbytes < 2 ^ 32 * 2 ^ 32 := Nat.mul_lt_mul'' hh hr
    _ = 2 ^ 64 := by norm_num

/-! ## Lemmas on guarded runs -/

theorem triple_bind {σ α β : Type} {m : Except (Run σ) α} {k : α → Except (Run σ) β}
    {P : α → Prop} {Q : β → Prop} {E : Run σ → Prop}
    (h1 : Triple m P E) (h2 : ∀ a, P a → Triple (k a) Q E) : Triple (m >>= k) Q E := by
  cases m with
  | error e => exact h1
  | ok a => exact h2 a h1

theorem triple_pure {σ α : Type} {a : α} {Q : α → Prop} {E : Run σ → Prop} (h : Q a) :
    Triple (pure a : Except (Run σ) α) Q E := h

theorem triple_call {σ : Type} {s : Run σ} {b : Bool} {c : PngCall} {f : σ → σ}
    {Q : Run σ → Prop} {E : Run σ → Prop}
    (he : b = true → E (s.log [.png c, .longjmp]))
    (hq : b = false → Q ((s.log [.png c]).upd f)) : Triple (s.call b c f) Q E := by
  unfold Run.call
  cases b
  · exact hq rfl
  · exact he rfl

theorem triple_ite_call {σ : Type} {s : Run σ} {p : Prop} [Decidable p] {b : Bool} {c : PngCall}
    {f : σ → σ} {Q : Run σ → Prop} {E : Run σ → Prop}
    (he : b = true → E (s.log [.png c, .longjmp]))
    (hq : Q (if p then (s.log [.png c]).upd f else s)) :
    Triple (if p then s.call b c f else pure s) Q E := by
  by_cases hp : p
  · rw [if_pos hp]
    rw [if_pos hp] at hq
    exact triple_call he (fun _ => hq)
  · rw [if_neg hp]
    rw [if_neg hp] at hq
    exact triple_pure hq

theorem seg_inert (p : Prop) [Decidable p] (c : PngCall) : (seg p c).all Event.inert = true := by
  unfold seg; split_ifs <;> simp [Event.inert]

theorem aborted_intro {σ : Type} {rows data : σ → Bool} {s a : Run σ} (t : List Event)
    {c : PngCall} (ht : a.trace = s.trace ++ t) (hi : t.all Event.inert = true)
    (hr : rows a.vars = rows s.vars) (hd : data a.vars = data s.vars) :
    Aborted rows data s (a.log [.png c, .longjmp]) := by
  refine ⟨t ++ [.png c, .longjmp], ?_, ?_, ?_, hr, hd⟩
  · simp [Run.log, ht]
  · simp [List.all_append, hi, Event.inert]
  · simp

theorem read_info_color_type (hd : png_header) :
    (png_read_info hd).color_type = hd.color_type := rfl

theorem read_info_num_trans (hd : png_header) :
    (png_read_info hd).num_trans = hd.num_trans := rfl

theorem read_info_width (hd : png_header) : (png_read_info hd).width = hd.width := rfl

theorem read_info_height (hd : png_header) : (png_read_info hd).height = hd.height := rfl

/-- Lines 53-89 of `load`: either every call returns and the state is the
negotiated one, or the codec raised an error and nothing was acquired. -/
theorem negotiate_spec (FMT : Fmt) (w : LoadWorld) (s : Run LoadVars)
    (hs : s.vars.reader = png_transforms.none) :
    Triple (load.negotiate FMT w s)
      (fun a => a = ⟨s.trace ++ load.negotiation FMT w.stream,
          load.negotiated FMT w.stream s.vars⟩ ∧
        png_check_IHDR w.stream.width w.stream.height w.stream.bit_depth
          w.stream.color_type = true)
      (fun e => Aborted (fun v => v.rows.isSome) (fun v => v.data.isSome) s e ∧
        (png_check_IHDR w.stream.width w.stream.height w.stream.bit_depth
          w.stream.color_type = false ∨ ∃ c, w.fails c = true)) := by
  unfold load.negotiate
  -- png_read_info
  refine triple_bind (P := fun a => a = ⟨s.trace ++ [.png .init_io, .png .read_info],
      { s.vars with info := png_read_info w.stream }⟩ ∧
      png_check_IHDR w.stream.width w.stream.height w.stream.bit_depth
        w.stream.color_type = true) ?_ ?_
  · refine triple_call (fun hb => ?_) (fun hb => ?_)
    · refine ⟨aborted_intro [.png .init_io] (by simp [Run.note, Run.log])
        (by simp [Event.inert]) rfl rfl, ?_⟩
      simp only [Bool.or_eq_true, Bool.not_eq_true'] at hb
      rcases hb with hb | hb
      · exact Or.inr ⟨_, hb⟩
      · exact Or.inl hb
    · simp only [Bool.or_eq_false_iff, Bool.not_eq_false'] at hb
      exact ⟨by simp [Run.note, Run.log, Run.upd], hb.2⟩
  rintro a ⟨rfl, hv⟩
  try dsimp only
  -- png_set_strip_16
  refine triple_bind (P := fun a => a = ⟨s.trace ++ [.png .init_io, .png .read_info,
      .png .get_color_type, .png .get_image_width, .png .get_image_height, .png .set_strip_16],
      load.midway w.stream s.vars (png_set_strip_16 png_transforms.none)⟩) ?_ ?_
  · refine triple_call (fun hb => ?_) (fun _ => ?_)
    · exact ⟨aborted_intro [.png .init_io, .png .read_info, .png .get_color_type,
        .png .get_image_width, .png .get_image_height] (by simp [Run.note, Run.log, Run.upd])
        (by simp [Event.inert]) rfl rfl, Or.inr ⟨_, hb⟩⟩
    · simp [Run.note, Run.log, Run.upd, load.midway, hs, read_info_color_type,
        read_info_width, read_info_height]
  rintro a rfl
  try dsimp only
  -- png_set_palette_to_rgb
  refine triple_bind (P := fun a => a = ⟨s.trace ++ ([.png .init_io, .png .read_info,
      .png .get_color_type, .png .get_image_width, .png .get_image_height, .png .set_strip_16] ++
      seg (w.stream.color_type = PNG_COLOR_TYPE_PALETTE) .set_palette_to_rgb),
      load.midway w.stream s.vars ⟨true, decide (w.stream.color_type = PNG_COLOR_TYPE_PALETTE),
        decide (w.stream.color_type = PNG_COLOR_TYPE_PALETTE), false, false, false, false⟩⟩) ?_ ?_
  · refine triple_ite_call (fun hb => ?_) ?_
    · exact ⟨aborted_intro _ rfl (by simp [Event.inert]) rfl rfl, Or.inr ⟨_, hb⟩⟩
    · by_cases hp : w.stream.color_type = PNG_COLOR_TYPE_PALETTE <;>
        simp [hp, seg, Run.log, Run.upd, load.midway, read_info_color_type,
          png_set_palette_to_rgb, png_set_strip_16, png_transforms.none]
  rintro a rfl
  -- png_set_gray_to_rgb
  refine triple_bind (P := fun a => a = ⟨s.trace ++ ([.png .init_io, .png .read_info,
      .png .get_color_type, .png .get_image_width, .png .get_image_height, .png .set_strip_16] ++
      seg (w.stream.color_type = PNG_COLOR_TYPE_PALETTE) .set_palette_to_rgb ++
      seg (w.stream.color_type = PNG_COLOR_TYPE_GRAY ∨
        w.stream.color_type = PNG_COLOR_TYPE_GRAY_ALPHA) .set_gray_to_rgb),
      load.midway w.stream s.vars ⟨true,
        decide (w.stream.color_type = PNG_COLOR_TYPE_PALETTE) ||
          decide (w.stream.color_type = PNG_COLOR_TYPE_GRAY ∨
            w.stream.color_type = PNG_COLOR_TYPE_GRAY_ALPHA),
        decide (w.stream.color_type = PNG_COLOR_TYPE_PALETTE),
        decide (w.stream.color_type = PNG_COLOR_TYPE_GRAY ∨
          w.stream.color_type = PNG_COLOR_TYPE_GRAY_ALPHA), false, false, false⟩⟩) ?_ ?_
  · refine triple_ite_call (fun hb => ?_) ?_
    · exact ⟨aborted_intro _ rfl (by simp [Event.inert, seg_inert]) rfl rfl, Or.inr ⟨_, hb⟩⟩
    · by_cases hp : (w.stream.color_type = PNG_COLOR_TYPE_GRAY ∨
          w.stream.color_type = PNG_COLOR_TYPE_GRAY_ALPHA) <;>
        simp [hp, seg, Run.log, Run.upd, load.midway, read_info_color_type,
          png_set_gray_to_rgb]
  rintro a rfl
  try dsimp only
  -- png_get_valid, png_set_tRNS_to_alpha
  refine triple_bind (P := fun a => a = ⟨s.trace ++ ([.png .init_io, .png .read_info,
      .png .get_color_type, .png .get_image_width, .png .get_image_height, .png .set_strip_16] ++
      seg (w.stream.color_type = PNG_COLOR_TYPE_PALETTE) .set_palette_to_rgb ++
      seg (w.stream.color_type = PNG_COLOR_TYPE_GRAY ∨
        w.stream.color_type = PNG_COLOR_TYPE_GRAY_ALPHA) .set_gray_to_rgb ++
      [.png .get_valid] ++ seg (w.stream.num_trans ≠ 0) .set_tRNS_to_alpha),
      load.midway w.stream s.vars ⟨true,
        decide (w.stream.color_type = PNG_COLOR_TYPE_PALETTE) ||
          decide (w.stream.color_type = PNG_COLOR_TYPE_GRAY ∨
            w.stream.color_type = PNG_COLOR_TYPE_GRAY_ALPHA) || decide (w.stream.num_trans ≠ 0),
        decide (w.stream.color_type = PNG_COLOR_TYPE_PALETTE) || decide (w.stream.num_trans ≠ 0),
        decide (w.stream.color_type = PNG_COLOR_TYPE_GRAY ∨
          w.stream.color_type = PNG_COLOR_TYPE_GRAY_ALPHA), false, false, false⟩⟩) ?_ ?_
  · refine triple_ite_call (fun hb => ?_) ?_
    · exact ⟨aborted_intro _ (by simp [Run.note, Run.log]; rfl)
        (by simp [Event.inert, seg_inert]) rfl rfl, Or.inr ⟨_, hb⟩⟩
    · by_cases hp : w.stream.num_trans = 0 <;>
        simp [hp, seg, Run.log, Run.upd, Run.note, load.midway, read_info_num_trans,
          png_set_tRNS_to_alpha]
  rintro a rfl
  try dsimp only
  -- png_set_filler
  refine triple_bind (P := fun a => a = ⟨s.trace ++ ([.png .init_io, .png .read_info,
      .png .get_color_type, .png .get_image_width, .png .get_image_height, .png .set_strip_16] ++
      seg (w.stream.color_type = PNG_COLOR_TYPE_PALETTE) .set_palette_to_rgb ++
      seg (w.stream.color_type = PNG_COLOR_TYPE_GRAY ∨
        w.stream.color_type = PNG_COLOR_TYPE_GRAY_ALPHA) .set_gray_to_rgb ++
      [.png .get_valid] ++ seg (w.stream.num_trans ≠ 0) .set_tRNS_to_alpha ++
      seg (FMT = Fmt.RGBA) (.set_filler 255 PNG_FILLER_AFTER)),
      load.midway w.stream s.vars ⟨true,
        decide (w.stream.color_type = PNG_COLOR_TYPE_PALETTE) ||
          decide (w.stream.color_type = PNG_COLOR_TYPE_GRAY ∨
            w.stream.color_type = PNG_COLOR_TYPE_GRAY_ALPHA) || decide (w.stream.num_trans ≠ 0),
        decide (w.stream.color_type = PNG_COLOR_TYPE_PALETTE) || decide (w.stream.num_trans ≠ 0),
        decide (w.stream.color_type = PNG_COLOR_TYPE_GRAY ∨
          w.stream.color_type = PNG_COLOR_TYPE_GRAY_ALPHA), decide (FMT = Fmt.RGBA), false, false⟩⟩) ?_ ?_
  · refine triple_ite_call (fun hb => ?_) ?_
    · exact ⟨aborted_intro _ rfl (by simp [Event.inert, seg_inert]) rfl rfl, Or.inr ⟨_, hb⟩⟩
    · by_cases hp : FMT = Fmt.RGBA <;>
        simp [hp, seg, Run.log, Run.upd, load.midway, png_set_filler]
  rintro a rfl
  try dsimp only
  -- png_set_background
  refine triple_bind (P := fun a => a = ⟨s.trace ++ ([.png .init_io, .png .read_info,
      .png .get_color_type, .png .get_image_width, .png .get_image_height, .png .set_strip_16] ++
      seg (w.stream.color_type = PNG_COLOR_TYPE_PALETTE) .set_palette_to_rgb ++
      seg (w.stream.color_type = PNG_COLOR_TYPE_GRAY ∨
        w.stream.color_type = PNG_COLOR_TYPE_GRAY_ALPHA) .set_gray_to_rgb ++
      [.png .get_valid] ++ seg (w.stream.num_trans ≠ 0) .set_tRNS_to_alpha ++
      seg (FMT = Fmt.RGBA) (.set_filler 255 PNG_FILLER_AFTER) ++
      seg (FMT = Fmt.RGB) (.set_background 255 255 255 PNG_BACKGROUND_GAMMA_SCREEN 0)),
      load.midway w.stream s.vars (load.declared FMT w.stream)⟩) ?_ ?_
  · refine triple_ite_call (fun hb => ?_) ?_
    · exact ⟨aborted_intro _ rfl (by simp [Event.inert, seg_inert]) rfl rfl, Or.inr ⟨_, hb⟩⟩
    · by_cases hp : FMT = Fmt.RGB <;>
        simp [hp, seg, Run.log, Run.upd, load.midway, png_set_background, load.declared]
  rintro a rfl
  try dsimp only
  -- png_read_update_info
  refine triple_bind (P := fun a => a = ⟨s.trace ++ (([.png .init_io, .png .read_info,
      .png .get_color_type, .png .get_image_width, .png .get_image_height, .png .set_strip_16] ++
      seg (w.stream.color_type = PNG_COLOR_TYPE_PALETTE) .set_palette_to_rgb ++
      seg (w.stream.color_type = PNG_COLOR_TYPE_GRAY ∨
        w.stream.color_type = PNG_COLOR_TYPE_GRAY_ALPHA) .set_gray_to_rgb ++
      [.png .get_valid] ++ seg (w.stream.num_trans ≠ 0) .set_tRNS_to_alpha ++
      seg (FMT = Fmt.RGBA) (.set_filler 255 PNG_FILLER_AFTER) ++
      seg (FMT = Fmt.RGB) (.set_background 255 255 255 PNG_BACKGROUND_GAMMA_SCREEN 0)) ++
      [.png .read_update_info]),
      { load.midway w.stream s.vars (load.declared FMT w.stream) with
        info := load.updated FMT w.stream }⟩) ?_ ?_
  · refine triple_call (fun hb => ?_) (fun _ => ?_)
    · exact ⟨aborted_intro _ rfl (by simp [Event.inert, seg_inert]) rfl rfl, Or.inr ⟨_, hb⟩⟩
    · simp [Run.log, Run.upd, load.midway, load.updated]
  rintro a rfl
  try dsimp only
  refine triple_pure ⟨?_, hv⟩
  simp [Run.note, Run.log, Run.upd, load.midway, load.negotiated, load.negotiation]
theorem triple_mono {σ α : Type} {m : Except (Run σ) α} {Q Q1 : α → Prop}
    {E E1 : Run σ → Prop} (h : Triple m Q E) (hq : ∀ a, Q a → Q1 a) (he : ∀ e, E e → E1 e) :
    Triple m Q1 E1 := by
  cases m with
  | error e => exact he e h
  | ok a => exact hq a h

/-- Lines 91-109 of `load`. -/
theorem decode_spec (FMT : Fmt) (w : LoadWorld) (s : Run LoadVars) :
    Triple (load.decode FMT w s)
      (fun r => w.fails .read_image = false ∧
        r.1.trace = s.trace ++ [.acquire .rows, .acquire .data, .png .read_image,
          .png .destroy_read_struct, .release .info, .release .png_struct, .release .rows,
          .fclose, .release .file] ∧
        r.1.vars = { s.vars with
          rows := some (row_table w.data_addr s.vars.height s.vars.rowbytes),
          data := some w.data_addr,
          mem := png_read_image s.vars.info
            (row_table w.data_addr s.vars.height s.vars.rowbytes) w.image s.vars.mem } ∧
        r.2 = ⟨s.vars.width, s.vars.height, w.data_addr⟩)
      (fun e => w.fails .read_image = true ∧
        e.trace = s.trace ++ [.acquire .rows, .acquire .data, .png .read_image, .longjmp] ∧
        e.vars = { s.vars with
          rows := some (row_table w.data_addr s.vars.height s.vars.rowbytes),
          data := some w.data_addr }) := by
  unfold load.decode
  refine triple_bind (P := fun a => w.fails .read_image = false ∧
      a.trace = s.trace ++ [.acquire .rows, .acquire .data, .png .read_image] ∧
      a.vars = { s.vars with
        rows := some (row_table w.data_addr s.vars.height s.vars.rowbytes),
        data := some w.data_addr,
        mem := png_read_image s.vars.info
          (row_table w.data_addr s.vars.height s.vars.rowbytes) w.image s.vars.mem }) ?_ ?_
  · refine triple_call (fun hb => ?_) (fun hb => ?_)
    · exact ⟨hb, by simp [Run.log, Run.upd], by simp [Run.log, Run.upd]⟩
    · exact ⟨hb, by simp [Run.log, Run.upd], by simp [Run.log, Run.upd]⟩
  rintro a ⟨hb, ht, hv⟩
  refine triple_pure ⟨hb, ?_, ?_, ?_⟩
  · simp [Run.note, Run.log, ht]
  · simp [Run.note, Run.log, hv]
  · simp [Run.note, Run.log, hv]

/-- The three ways the guarded part of `load` ends. -/
theorem guarded_spec (FMT : Fmt) (w : LoadWorld) (s : Run LoadVars)
    (hs : s.vars = load.start w) :
    Triple (load.guarded FMT w s)
      (fun r => w.fails .read_image = false ∧
        png_check_IHDR w.stream.width w.stream.height w.stream.bit_depth
          w.stream.color_type = true ∧
        r.1.trace = s.trace ++ load.negotiation FMT w.stream ++
          [.acquire .rows, .acquire .data, .png .read_image,
          .png .destroy_read_struct, .release .info, .release .png_struct, .release .rows,
          .fclose, .release .file] ∧
        r.1.vars = load.decoded FMT w ∧
        r.2 = ⟨usize (u32 w.stream.width), usize (u32 w.stream.height), w.data_addr⟩)
      (fun e =>
        ((png_check_IHDR w.stream.width w.stream.height w.stream.bit_depth
            w.stream.color_type = false ∨ ∃ c, w.fails c = true) ∧
          ∃ t, e.trace = s.trace ++ t ∧ t.all Event.inert = true ∧ Event.longjmp ∈ t ∧
          e.vars.rows.isSome = false ∧ e.vars.data.isSome = false) ∨
        (w.fails .read_image = true ∧
          png_check_IHDR w.stream.width w.stream.height w.stream.bit_depth
            w.stream.color_type = true ∧
          e.trace = s.trace ++ load.negotiation FMT w.stream ++
            [.acquire .rows, .acquire .data, .png .read_image, .longjmp] ∧
          e.vars = load.allocated FMT w)) := by
  unfold load.guarded
  refine triple_bind (triple_mono (negotiate_spec FMT w s (by rw [hs]; rfl))
    (fun a h => h) (fun e h => ?_)) ?_
  · obtain ⟨⟨t, h1, h2, h3, h4, h5⟩, hc⟩ := h
    refine Or.inl ⟨hc, t, h1, h2, h3, ?_, ?_⟩
    · have h := h4
      simp only [hs] at h
      exact h
    · have h := h5
      simp only [hs] at h
      exact h
  rintro a ⟨rfl, hv⟩
  refine triple_mono (decode_spec FMT w _) ?_ ?_
  · rintro r ⟨h1, h2, h3, h4⟩
    refine ⟨h1, hv, ?_, ?_, ?_⟩
    · rw [h2]
    · rw [h3, hs]; rfl
    · rw [h4]; rfl
  · rintro e ⟨h1, h2, h3⟩
    refine Or.inr ⟨h1, hv, ?_, ?_⟩
    · rw [h2]
    · rw [h3, hs]; rfl

/-- Every call of `load` ends in one of six ways. -/
theorem load_cases (FMT : Fmt) (w : LoadWorld) :
    (w.fopen_ok = false ∧ (load FMT w).result = .err .FILE_OPEN_ERR ∧
      (load FMT w).trace = [.fopen .rb]) ∨
    (w.fopen_ok = true ∧ w.read_struct_ok = false ∧
      (load FMT w).result = .err .PNG_INTERNAL_ERR ∧
      (load FMT w).trace =
        [.fopen .rb, .acquire .file, .png .create_read_struct, .fclose, .release .file]) ∨
    (w.fopen_ok = true ∧ w.read_struct_ok = true ∧ w.info_struct_ok = false ∧
      (load FMT w).result = .err .PNG_INTERNAL_ERR ∧
      (load FMT w).trace =
        [.fopen .rb, .acquire .file, .png .create_read_struct, .acquire .png_struct,
          .png .create_info_struct, .png .destroy_read_struct, .release .png_struct,
          .fclose, .release .file]) ∨
    (w.fopen_ok = true ∧ w.read_struct_ok = true ∧ w.info_struct_ok = true ∧
      (load FMT w).result = .err .PNG_LOAD_ERR ∧
      (png_check_IHDR w.stream.width w.stream.height w.stream.bit_depth
        w.stream.color_type = false ∨ ∃ c, w.fails c = true) ∧
      ∃ t, (load FMT w).trace = load.opening ++ t ++ load.unwind_early ∧
        t.all Event.inert = true ∧ Event.longjmp ∈ t) ∨
    (w.fopen_ok = true ∧ w.read_struct_ok = true ∧ w.info_struct_ok = true ∧
      w.fails .read_image = true ∧
      png_check_IHDR w.stream.width w.stream.height w.stream.bit_depth
        w.stream.color_type = true ∧
      (load FMT w).result = .err .PNG_LOAD_ERR ∧
      (load FMT w).trace = load.opening ++ load.negotiation FMT w.stream ++
        [.acquire .rows, .acquire .data, .png .read_image, .longjmp] ++ load.unwind_late) ∨
    (w.fopen_ok = true ∧ w.read_struct_ok = true ∧ w.info_struct_ok = true ∧
      w.fails .read_image = false ∧
      png_check_IHDR w.stream.width w.stream.height w.stream.bit_depth
        w.stream.color_type = true ∧
      (load FMT w).result =
        .ok ⟨usize (u32 w.stream.width), usize (u32 w.stream.height), w.data_addr⟩ ∧
      (load FMT w).trace = load.opening ++ load.negotiation FMT w.stream ++ load.closing ∧
      (load FMT w).final.vars = load.decoded FMT w) := by
  cases h1 : w.fopen_ok
  · left
    simp [load, h1, LoadOutcome.trace, Run.log]
  right
  cases h2 : w.read_struct_ok
  · left
    simp [load, h1, h2, LoadOutcome.trace, Run.log, Run.note]
  right
  cases h3 : w.info_struct_ok
  · left
    simp [load, h1, h2, h3, LoadOutcome.trace, Run.log, Run.note]
  right
  have hg := guarded_spec FMT w ⟨load.opening, load.start w⟩ rfl
  have hl : load FMT w =
      match load.guarded FMT w ⟨load.opening, load.start w⟩ with
      | .error s => ⟨.err .PNG_LOAD_ERR, load.recover s⟩
      | .ok (s, b) => ⟨.ok b, s⟩ := by
    simp [load, h1, h2, h3, Run.log, Run.note, Run.upd, load.opening, load.start]
  rw [hl]
  cases hm : load.guarded FMT w ⟨load.opening, load.start w⟩ with
  | error e =>
    rw [hm] at hg
    simp only [Triple] at hg
    rcases hg with ⟨hc, t, ht, hi, hj, hr, hd⟩ | ⟨hf, hv, ht, hvars⟩
    · left
      refine ⟨rfl, rfl, rfl, rfl, hc, t, ?_, hi, hj⟩
      simp [LoadOutcome.trace, load.recover, Run.log, Run.note, hr, hd, ht, load.unwind_early]
    · right; left
      refine ⟨rfl, rfl, rfl, hf, hv, rfl, ?_⟩
      simp [LoadOutcome.trace, load.recover, Run.log, Run.note, ht, hvars, load.allocated,
        load.unwind_late]
  | ok r =>
    rw [hm] at hg
    simp only [Triple] at hg
    obtain ⟨hf, hv, ht, hvars, hb⟩ := hg
    right; right
    refine ⟨rfl, rfl, rfl, hf, hv, ?_, ?_, ?_⟩
    · simp [hb]
    · simp [LoadOutcome.trace, ht, load.closing]
    · simp [hvars]

/-! ## Lemmas on traces -/

theorem negotiation_calls (FMT : Fmt) (hd : png_header) :
    ∀ e ∈ load.negotiation FMT hd, ∃ c, e = .png c := by
  intro e he
  simp only [load.negotiation, seg, List.mem_append] at he
  rcases he with ((((((he | he) | he) | he) | he) | he) | he) | he <;>
    first
    | (split_ifs at he <;> simp at he <;> exact ⟨_, he⟩)
    | (simp at he; rcases he with he | he | he | he | he | he <;> exact ⟨_, he⟩)
    | (simp at he; rcases he with he | he <;> exact ⟨_, he⟩)
    | (simp at he; exact ⟨_, he⟩)

theorem longjmp_not_mem_negotiation (FMT : Fmt) (hd : png_header) :
    Event.longjmp ∉ load.negotiation FMT hd := by
  intro h
  obtain ⟨c, hc⟩ := negotiation_calls FMT hd _ h
  cases hc

/-- C6: `load` returns FILE_OPEN_ERR exactly when the source cannot be opened,
and then its trace has no codec call; it returns PNG_INTERNAL_ERR exactly when
the source opens and the read state or the info state is not created; it
returns PNG_LOAD_ERR exactly when both are created and the codec jumps to the
recovery boundary during a later call; it returns a bitmap exactly in the
remaining case; it never returns PNG_WRITE_ERR or INVALID_FORMAT_ERR. -/
theorem load_error_classification (FMT : Fmt) (w : LoadWorld) :
    ((load FMT w).result = .err .FILE_OPEN_ERR ↔ w.fopen_ok = false) ∧
    ((load FMT w).result ≠ .err .FILE_OPEN_ERR ∨ png_calls (load FMT w).trace = []) ∧
    ((load FMT w).result = .err .PNG_INTERNAL_ERR ↔
      w.fopen_ok = true ∧ (w.read_struct_ok = false ∨ w.info_struct_ok = false)) ∧
    ((load FMT w).result = .err .PNG_LOAD_ERR ↔
      w.fopen_ok = true ∧ w.read_struct_ok = true ∧ w.info_struct_ok = true ∧
        Event.longjmp ∈ (load FMT w).trace) ∧
    ((∃ b, (load FMT w).result = .ok b) ↔
      w.fopen_ok = true ∧ w.read_struct_ok = true ∧ w.info_struct_ok = true ∧
        Event.longjmp ∉ (load FMT w).trace) ∧
    (load FMT w).result ≠ .err .PNG_WRITE_ERR ∧
    (load FMT w).result ≠ .err .INVALID_FORMAT_ERR := by
  have hn := longjmp_not_mem_negotiation FMT w.stream
  rcases load_cases FMT w with ⟨h1, hr, ht⟩ | ⟨h1, h2, hr, ht⟩ | ⟨h1, h2, h3, hr, ht⟩ |
      ⟨h1, h2, h3, hr, hc, t, ht, hi, hj⟩ | ⟨h1, h2, h3, hf, hv, hr, ht⟩ |
      ⟨h1, h2, h3, hf, hv, hr, ht, hvars⟩
  · simp [hr, ht, h1, png_calls]
  · simp [hr, ht, h1, h2]
  · simp [hr, ht, h1, h2, h3]
  · simp [hr, ht, h1, h2, h3, hj]
  · simp [hr, ht, h1, h2, h3]
  · simp [hr, ht, h1, h2, h3, hn, load.opening, load.closing]

theorem check_IHDR_cases {width height bit_depth color_type : Nat}
    (h : png_check_IHDR width height bit_depth color_type = true) :
    (0 < width ∧ width ≤ 1000000) ∧ (0 < height ∧ height ≤ 1000000) ∧
    ((color_type = 0 ∧ (bit_depth = 1 ∨ bit_depth = 2 ∨ bit_depth = 4 ∨ bit_depth = 8 ∨
        bit_depth = 16)) ∨
      (color_type = 3 ∧ (bit_depth = 1 ∨ bit_depth = 2 ∨ bit_depth = 4 ∨ bit_depth = 8)) ∨
      ((color_type = 2 ∨ color_type = 4 ∨ color_type = 6) ∧
        (bit_depth = 8 ∨ bit_depth = 16))) := by
  simp only [png_check_IHDR, Bool.and_eq_true, decide_eq_true_eq, Bool.not_eq_true',
    decide_eq_false_iff_not, PNG_UINT_31_MAX, PNG_USER_WIDTH_MAX, PNG_USER_HEIGHT_MAX,
    PNG_COLOR_TYPE_PALETTE, PNG_COLOR_TYPE_RGB, PNG_COLOR_TYPE_GRAY_ALPHA,
    PNG_COLOR_TYPE_RGB_ALPHA] at h
  obtain ⟨⟨⟨⟨⟨hw, hh⟩, hb⟩, hc⟩, hp⟩, hr⟩ := h
  refine ⟨by omega, by omega, ?_⟩
  omega

theorem rowbytes_of_width {width k : Nat} (hw : width ≤ 1000000) (hk : k ≤ 4) :
    usize_mul width k = width * k ∧ u32 (width * k) = width * k := by
  have h1 : width * k ≤ 4000000 := by
    calc width * k ≤ 1000000 * 4 := Nat.mul_le_mul hw hk
      _ = 4000000 := by norm_num
  unfold usize_mul usize u32
  constructor
  · rw [Nat.mod_eq_of_lt (by omega : width < 2 ^ 64), Nat.mod_eq_of_lt (by omega : k < 2 ^ 64),
      Nat.mod_eq_of_lt (by omega)]
  · exact Nat.mod_eq_of_lt (by omega)

/-- The metadata after the transformations `load` declares, for a header the
codec accepts: 8-bit channels, as many as the target format has bytes per pixel. -/
theorem updated_layout (FMT : Fmt) (hd : png_header) (hf : FMT = .RGB ∨ FMT = .RGBA)
    (hv : png_check_IHDR hd.width hd.height hd.bit_depth hd.color_type = true) :
    (load.updated FMT hd).channels = bytes_per_pixel FMT ∧
    (load.updated FMT hd).bit_depth = 8 ∧
    (load.updated FMT hd).width = hd.width ∧
    (load.updated FMT hd).rowbytes = usize_mul hd.width (bytes_per_pixel FMT) ∧
    (load.updated FMT hd).height = hd.height := by
  obtain ⟨hw, hh, hc⟩ := check_IHDR_cases hv
  obtain ⟨w, h, bd, ct, nt⟩ := hd
  simp only at hw hh hc hv ⊢
  by_cases hn : nt = 0
  · subst hn
    rcases hf with rfl | rfl <;>
    rcases hc with ⟨rfl, rfl | rfl | rfl | rfl | rfl⟩ | ⟨rfl, rfl | rfl | rfl | rfl⟩ |
      ⟨rfl | rfl | rfl, rfl | rfl⟩ <;>
    simp +decide [load.updated, load.declared, png_read_transform_info, png_read_info, png_set_IHDR,
      png_info.zero, png_channels, PNG_ROWBYTES, bytes_per_pixel, PNG_COLOR_TYPE_PALETTE,
      PNG_COLOR_TYPE_GRAY, PNG_COLOR_TYPE_GRAY_ALPHA, PNG_COLOR_TYPE_RGB,
      PNG_COLOR_TYPE_RGB_ALPHA, PNG_COLOR_MASK_ALPHA, PNG_COLOR_MASK_COLOR]
  · have hp : 0 < nt := Nat.pos_of_ne_zero hn
    rcases hf with rfl | rfl <;>
    rcases hc with ⟨rfl, rfl | rfl | rfl | rfl | rfl⟩ | ⟨rfl, rfl | rfl | rfl | rfl⟩ |
      ⟨rfl | rfl | rfl, rfl | rfl⟩ <;>
    simp +decide [load.updated, load.declared, png_read_transform_info, png_read_info,
      png_set_IHDR, png_info.zero, png_channels, PNG_ROWBYTES, bytes_per_pixel,
      PNG_COLOR_TYPE_PALETTE, PNG_COLOR_TYPE_GRAY, PNG_COLOR_TYPE_GRAY_ALPHA,
      PNG_COLOR_TYPE_RGB, PNG_COLOR_TYPE_RGB_ALPHA, PNG_COLOR_MASK_ALPHA,
      PNG_COLOR_MASK_COLOR, hn, hp]

theorem small_dim {n : Nat} (h : n ≤ 1000000) : usize (u32 n) = n := by
  unfold usize u32
  rw [Nat.mod_eq_of_lt (by omega : n < 2 ^ 32), Nat.mod_eq_of_lt (by omega : n < 2 ^ 64)]

/-- C8: when `load<FMT>` returns a bitmap (FMT being RGB or RGBA), it has
declared strip-16 always, palette-to-RGB iff the colour type is palette,
gray-to-RGB iff it is gray or gray-alpha, tRNS-to-alpha iff the stream has a
tRNS chunk, the filler 0xff after the triple iff FMT is RGBA and compositing on
white iff FMT is RGB; the metadata after `png_read_update_info` has
`bytes_per_pixel FMT` channels of 8 bits, the row byte count `load` stores is
`width * bytes_per_pixel FMT`, the pixel buffer has
`width * height * bytes_per_pixel FMT` bytes, and the bitmap has the width and
the height of the stream. -/
theorem load_output_layout (FMT : Fmt) (w : LoadWorld) (b : Bitmap FMT)
    (hf : FMT = .RGB ∨ FMT = .RGBA) (hr : (load FMT w).result = .ok b) :
    (load FMT w).final.vars.info.channels = bytes_per_pixel FMT ∧
    (load FMT w).final.vars.info.bit_depth = 8 ∧
    (load FMT w).final.vars.rowbytes = w.stream.width * bytes_per_pixel FMT ∧
    data_size (load FMT w).final.vars.height (load FMT w).final.vars.rowbytes =
      w.stream.width * w.stream.height * bytes_per_pixel FMT ∧
    b.width = w.stream.width ∧ b.height = w.stream.height ∧
    Event.png .set_strip_16 ∈ (load FMT w).trace ∧
    (Event.png .set_palette_to_rgb ∈ (load FMT w).trace ↔
      w.stream.color_type = PNG_COLOR_TYPE_PALETTE) ∧
    (Event.png .set_gray_to_rgb ∈ (load FMT w).trace ↔
      (w.stream.color_type = PNG_COLOR_TYPE_GRAY ∨
        w.stream.color_type = PNG_COLOR_TYPE_GRAY_ALPHA)) ∧
    (Event.png .set_tRNS_to_alpha ∈ (load FMT w).trace ↔ w.stream.num_trans ≠ 0) ∧
    (Event.png (.set_filler 255 PNG_FILLER_AFTER) ∈ (load FMT w).trace ↔ FMT = .RGBA) ∧
    (Event.png (.set_background 255 255 255 PNG_BACKGROUND_GAMMA_SCREEN 0) ∈
      (load FMT w).trace ↔ FMT = .RGB) := by
  rcases load_cases FMT w with ⟨_, hr1, _⟩ | ⟨_, _, hr1, _⟩ | ⟨_, _, _, hr1, _⟩ |
      ⟨_, _, _, hr1, _⟩ | ⟨_, _, _, _, _, hr1, _⟩ | ⟨_, _, _, _, hv, hr1, ht, hvars⟩
  · rw [hr1] at hr; cases hr
  · rw [hr1] at hr; cases hr
  · rw [hr1] at hr; cases hr
  · rw [hr1] at hr; cases hr
  · rw [hr1] at hr; cases hr
  obtain ⟨hw, hh, _⟩ := check_IHDR_cases hv
  obtain ⟨hc, hb, _, hrb, _⟩ := updated_layout FMT w.stream hf hv
  have hk : bytes_per_pixel FMT ≤ 4 := by rcases hf with rfl | rfl <;> decide
  obtain ⟨hm, hu⟩ := rowbytes_of_width hw.2 hk
  rw [hm] at hrb
  have e1 : (load FMT w).final.vars.info = load.updated FMT w.stream := by rw [hvars]; rfl
  have e2 : (load FMT w).final.vars.rowbytes = w.stream.width * bytes_per_pixel FMT := by
    rw [hvars]
    show u32 (load.updated FMT w.stream).rowbytes = _
    rw [hrb, hu]
  have e3 : (load FMT w).final.vars.height = w.stream.height := by
    rw [hvars]
    exact small_dim hh.2
  rw [hr1] at hr
  cases hr
  refine ⟨by rw [e1, hc], by rw [e1, hb], e2, ?_, small_dim hw.2, small_dim hh.2, ?_, ?_, ?_,
    ?_, ?_, ?_⟩
  · rw [e2, e3]
    have h1 : w.stream.width * bytes_per_pixel FMT ≤ 4000000 := by
      calc w.stream.width * bytes_per_pixel FMT ≤ 1000000 * 4 := Nat.mul_le_mul hw.2 hk
        _ = 4000000 := by norm_num
    rw [data_size_exact (by omega) (by omega)]
    ring
  all_goals
    rw [ht]
    simp [load.opening, load.negotiation, load.closing, seg]

/-- The output layout for a 2 x 3 palette image of 4 bits per pixel with a
tRNS chunk, loaded as RGBA. -/
theorem load_output_layout_witness :
    (Fmt.RGBA = .RGB ∨ Fmt.RGBA = .RGBA) ∧
    (load .RGBA sample_stream_world).result = .ok ⟨2, 3, 1000⟩ ∧
    (load .RGBA sample_stream_world).final.vars.info.channels = 4 ∧
    (load .RGBA sample_stream_world).final.vars.info.bit_depth = 8 ∧
    (load .RGBA sample_stream_world).final.vars.rowbytes = 2 * 4 ∧
    data_size (load .RGBA sample_stream_world).final.vars.height
      (load .RGBA sample_stream_world).final.vars.rowbytes = 2 * 3 * 4 :=
  have h := load_output_layout .RGBA sample_stream_world ⟨2, 3, 1000⟩ (Or.inr rfl) (by decide)
  ⟨Or.inr rfl, by decide, h.1, h.2.1, h.2.2.1, h.2.2.2.1⟩

/-! ## The ways `write` ends -/

/-- Every call of `write` ends in one of nine ways. -/
theorem write_cases {FMT : Fmt} (w : WriteWorld) (b : Bitmap FMT) :
    (w.fopen_ok = false ∧ (write w b).result = .err .FILE_OPEN_ERR ∧
      (write w b).trace = [.fopen .wb] ∧ (write w b).dest = w.dest) ∨
    (w.fopen_ok = true ∧ w.write_struct_ok = false ∧
      (write w b).result = .err .PNG_INTERNAL_ERR ∧
      (write w b).trace =
        [.fopen .wb, .acquire .file, .png .create_write_struct, .fclose, .release .file] ∧
      (write w b).dest = some PngFile.empty) ∨
    (w.fopen_ok = true ∧ w.write_struct_ok = true ∧ w.info_struct_ok = false ∧
      (write w b).result = .err .PNG_INTERNAL_ERR ∧
      (write w b).trace =
        [.fopen .wb, .acquire .file, .png .create_write_struct, .acquire .png_struct,
          .png .create_info_struct, .png .destroy_write_struct, .release .png_struct,
          .fclose, .release .file] ∧
      (write w b).dest = some PngFile.empty) ∨
    (w.fopen_ok = true ∧ w.write_struct_ok = true ∧ w.info_struct_ok = true ∧
      ((FMT ≠ .RGB ∧ FMT ≠ .RGBA ∧
        (write w b).result = .err .INVALID_FORMAT_ERR ∧
        (write w b).trace = write.opening ++ [.png .init_io] ∧
        (write w b).dest = some PngFile.empty) ∨
      ((FMT = .RGB ∨ FMT = .RGBA) ∧
        ((write.ihdr_fails w b = true ∧
          (write w b).result = .err .PNG_WRITE_ERR ∧
          (write w b).trace = write.opening ++
            [.png .init_io, .png (write.ihdr b), .longjmp] ++ write.unwind_early) ∨
        (write.ihdr_fails w b = false ∧ w.fails .write_info = true ∧
          (write w b).result = .err .PNG_WRITE_ERR ∧
          (write w b).trace = write.opening ++
            [.png .init_io, .png (write.ihdr b), .png .write_info, .longjmp] ++
            write.unwind_early) ∨
        (write.ihdr_fails w b = false ∧ w.fails .write_info = false ∧
          w.fails .write_image = true ∧
          (write w b).result = .err .PNG_WRITE_ERR ∧
          (write w b).trace = write.opening ++
            [.png .init_io, .png (write.ihdr b), .png .write_info, .acquire .rows,
              .png .get_rowbytes, .png .write_image, .longjmp] ++ write.unwind_late) ∨
        (write.ihdr_fails w b = false ∧ w.fails .write_info = false ∧
          w.fails .write_image = false ∧ w.fails .write_end = true ∧
          (write w b).result = .err .PNG_WRITE_ERR ∧
          (write w b).trace = write.opening ++
            [.png .init_io, .png (write.ihdr b), .png .write_info, .acquire .rows,
              .png .get_rowbytes, .png .write_image, .png .write_end, .longjmp] ++
            write.unwind_late) ∨
        (write.ihdr_fails w b = false ∧ w.fails .write_info = false ∧
          w.fails .write_image = false ∧ w.fails .write_end = false ∧
          (write w b).result = .ok () ∧
          (write w b).trace = write.opening ++
            [.png .init_io, .png (write.ihdr b), .png .write_info, .acquire .rows,
              .png .get_rowbytes, .png .write_image, .png .write_end] ++ write.unwind_late ∧
          (write w b).dest = some (write.file w b) ∧
          (write w b).final.vars.rows =
            some (row_table b.data b.height (usize (write.info b).rowbytes))))))) := by
  cases h1 : w.fopen_ok
  · left
    simp [write, h1, WriteOutcome.trace, WriteOutcome.dest, Run.log]
  right
  cases h2 : w.write_struct_ok
  · left
    simp [write, h1, h2, WriteOutcome.trace, WriteOutcome.dest, Run.log, Run.note, Run.upd]
  right
  cases h3 : w.info_struct_ok
  · left
    simp [write, h1, h2, h3, WriteOutcome.trace, WriteOutcome.dest, Run.log, Run.note, Run.upd]
  right
  refine ⟨rfl, rfl, rfl, ?_⟩
  by_cases hf : FMT ≠ .RGB ∧ FMT ≠ .RGBA
  · left
    refine ⟨hf.1, hf.2, ?_⟩
    simp [write, write.guarded, h1, h2, h3, hf, Bitmap.format, WriteOutcome.trace,
      WriteOutcome.dest, Run.log, Run.note, Run.upd, write.opening, pure, Except.pure]
  right
  have hf' : FMT = .RGB ∨ FMT = .RGBA := by
    by_cases h : FMT = .RGB
    · exact Or.inl h
    · right
      by_contra h'
      exact hf ⟨h, h'⟩
  refine ⟨hf', ?_⟩
  have hfm : ¬(b.format ≠ Fmt.RGB ∧ b.format ≠ Fmt.RGBA) := hf
  have hct : (if b.format = Fmt.RGB then PNG_COLOR_TYPE_RGB else PNG_COLOR_TYPE_RGBA) =
      write.color_type FMT := rfl
  have hl : write w b =
      match write.guarded w b ⟨write.opening, ⟨png_info.zero, 0, 0, none, some PngFile.empty⟩⟩ with
      | .error s => ⟨.err .PNG_WRITE_ERR, write.recover s⟩
      | .ok (s, r) => ⟨r, s⟩ := by
    simp [write, h1, h2, h3, Run.log, Run.note, Run.upd, write.opening]
  have hg : write.guarded w b ⟨write.opening, ⟨png_info.zero, 0, 0, none, some PngFile.empty⟩⟩ =
      (do
        let s ← (⟨write.opening ++ [.png .init_io],
            ⟨png_info.zero, write.color_type FMT, 0, none, some PngFile.empty⟩⟩ :
            Run WriteVars).call (write.ihdr_fails w b) (write.ihdr b)
          (fun v => { v with info := write.info b })
        let s ← s.call (w.fails .write_info) .write_info
          (fun v => v.emit (fun f => { f with header := some v.info.header }))
        let s := (s.log [.acquire .rows]).upd
          (fun v => { v with rows := some (List.replicate b.height 0) })
        let s := (s.note .get_rowbytes).upd (fun v => { v with rowbytes := usize v.info.rowbytes })
        let s := s.upd
          (fun v => { v with rows := some (row_table b.data b.height v.rowbytes) })
        let s ← s.call (w.fails .write_image) .write_image
          (fun v => v.emit (fun f => { f with image := png_write_image (v.rows.getD []) w.mem }))
        let s ← s.call (w.fails .write_end) .write_end
          (fun v => v.emit (fun f => { f with ended := true }))
        let s := (s.note .destroy_write_struct).log [.release .info, .release .png_struct]
        let s := s.log [.release .rows]
        let s := s.log [.fclose, .release .file]
        pure (s, .ok ())) := by
    unfold write.guarded
    simp only [hfm, if_false, hct]
    rfl
  rw [hl, hg]
  cases e1 : write.ihdr_fails w b
  swap
  · left
    simp [Run.call, e1, bind, Except.bind, write.recover, Run.log, Run.note, Run.upd,
      WriteOutcome.trace, write.unwind_early]
  right
  cases e2 : w.fails .write_info
  swap
  · left
    simp [Run.call, e1, e2, bind, Except.bind, write.recover, Run.log, Run.note, Run.upd,
      WriteOutcome.trace, write.unwind_early, WriteVars.emit]
  right
  cases e3 : w.fails .write_image
  swap
  · left
    simp [Run.call, e1, e2, e3, bind, Except.bind, write.recover, Run.log, Run.note, Run.upd,
      WriteOutcome.trace, write.unwind_late, WriteVars.emit]
  right
  cases e4 : w.fails .write_end
  swap
  · left
    simp [Run.call, e1, e2, e3, e4, bind, Except.bind, write.recover, Run.log, Run.note, Run.upd,
      WriteOutcome.trace, write.unwind_late, WriteVars.emit]
  right
  simp [Run.call, e1, e2, e3, e4, bind, Except.bind, Run.log, Run.note, Run.upd,
    WriteOutcome.trace, WriteOutcome.dest, write.unwind_late, WriteVars.emit, pure, Except.pure,
    write.file, PngFile.empty]

/-! ## Claims on `write` -/

/-- For a bitmap of format RGB or RGBA no resource is live after `write`,
however it ends. -/
theorem write_releases_when_format_valid {FMT : Fmt} (w : WriteWorld) (b : Bitmap FMT)
    (hf : FMT = .RGB ∨ FMT = .RGBA) : ledger (write w b).trace [] = some [] := by
  rcases write_cases w b with ⟨_, _, ht, _⟩ | ⟨_, _, _, ht, _⟩ | ⟨_, _, _, _, ht, _⟩ |
    ⟨_, _, _, ⟨h1, h2, _⟩ | ⟨_, ⟨_, _, ht⟩ | ⟨_, _, _, ht⟩ | ⟨_, _, _, _, ht⟩ |
      ⟨_, _, _, _, _, ht⟩ | ⟨_, _, _, _, _, ht, _, _⟩⟩⟩
  · rw [ht]; rfl
  · rw [ht]; rfl
  · rw [ht]; rfl
  · rcases hf with h | h
    · exact absurd h h1
    · exact absurd h h2
  all_goals
    rw [ht]
    rfl

/-- C5, at the failing input: a bitmap whose format is neither RGB nor RGBA,
the destination opening and both codec states being created. `write` returns
INVALID_FORMAT_ERR with the file handle, the write state and the info state
still live: none of them is released, the file is not closed. -/
theorem write_leaks_on_unknown_format :
    (write sample_write_world sample_odd_bitmap).result = .err .INVALID_FORMAT_ERR ∧
    ledger (write sample_write_world sample_odd_bitmap).trace [] =
      some [Resource.info, Resource.png_struct, Resource.file] ∧
    (write sample_write_world sample_odd_bitmap).trace.count .fclose = 0 ∧
    (write sample_write_world sample_odd_bitmap).trace.count (.acquire .file) = 1 ∧
    (write sample_write_world sample_odd_bitmap).trace.count (.release .file) = 0 := by
  decide

/-- C3, as stated, fails: for a bitmap whose format is neither RGB nor RGBA,
`write` has opened the destination with mode "wb" before it returns
INVALID_FORMAT_ERR, and the destination, a complete stream before the call, is
an empty file after it. -/
theorem write_truncates_before_format_check :
    (write sample_write_world sample_odd_bitmap).result = .err .INVALID_FORMAT_ERR ∧
    Event.fopen .wb ∈ (write sample_write_world sample_odd_bitmap).trace ∧
    sample_write_world.dest.map PngFile.ended = some true ∧
    (write sample_write_world sample_odd_bitmap).dest.map PngFile.ended = some false ∧
    (write sample_write_world sample_odd_bitmap).dest.map PngFile.header = some none := by
  decide

/-- C3, amended: for a bitmap whose format is neither RGB nor RGBA, `write`
opens the destination for writing before it looks at the format. If the open
fails it returns FILE_OPEN_ERR and the destination is unchanged; if a codec
state is not created it returns PNG_INTERNAL_ERR; otherwise it returns
INVALID_FORMAT_ERR, the destination is the empty file the open left, and no
codec call follows `png_init_io`. -/
theorem write_rejects_unknown_format (FMT : Fmt) (w : WriteWorld) (b : Bitmap FMT)
    (h1 : FMT ≠ .RGB) (h2 : FMT ≠ .RGBA) :
    (write w b).trace.head? = some (.fopen .wb) ∧
    ((w.fopen_ok = false ∧ (write w b).result = .err .FILE_OPEN_ERR ∧
        (write w b).dest = w.dest) ∨
      (w.fopen_ok = true ∧ (w.write_struct_ok = false ∨ w.info_struct_ok = false) ∧
        (write w b).result = .err .PNG_INTERNAL_ERR ∧
        (write w b).dest = some PngFile.empty) ∨
      (w.fopen_ok = true ∧ w.write_struct_ok = true ∧ w.info_struct_ok = true ∧
        (write w b).result = .err .INVALID_FORMAT_ERR ∧
        (write w b).dest = some PngFile.empty ∧
        png_calls (write w b).trace = [.create_write_struct, .create_info_struct, .init_io])) := by
  rcases write_cases w b with ⟨e1, hr, ht, hd⟩ | ⟨e1, e2, hr, ht, hd⟩ |
    ⟨e1, e2, e3, hr, ht, hd⟩ | ⟨e1, e2, e3, ⟨_, _, hr, ht, hd⟩ | ⟨hf, _⟩⟩
  · exact ⟨by rw [ht]; rfl, Or.inl ⟨e1, hr, hd⟩⟩
  · exact ⟨by rw [ht]; rfl, Or.inr (Or.inl ⟨e1, Or.inl e2, hr, hd⟩)⟩
  · exact ⟨by rw [ht]; rfl, Or.inr (Or.inl ⟨e1, Or.inr e3, hr, hd⟩)⟩
  · exact ⟨by rw [ht]; rfl, Or.inr (Or.inr ⟨e1, e2, e3, hr, hd, by rw [ht]; rfl⟩)⟩
  · rcases hf with h | h
    · exact absurd h h1
    · exact absurd h h2

/-- The amended claim C3 at a bitmap of an unknown format, the destination
being an existing file. -/
theorem write_rejects_unknown_format_witness :
    Fmt.other 0 ≠ .RGB ∧ Fmt.other 0 ≠ .RGBA ∧
    (write sample_write_world sample_odd_bitmap).trace.head? = some (.fopen .wb) :=
  ⟨by decide, by decide,
    (write_rejects_unknown_format (.other 0) sample_write_world sample_odd_bitmap
      (by decide) (by decide)).1⟩

/-- C7, as stated, fails: for an RGB bitmap of width `2^32 + 5` and height 1,
the destination opening and both codec states being created, the one call of
`png_set_IHDR` has width 5, not the bitmap's own width, and `write` returns
success. -/
theorem write_header_width_wraps :
    sample_write_world.fopen_ok = true ∧ sample_write_world.write_struct_ok = true ∧
    sample_write_world.info_struct_ok = true ∧
    wide_bitmap.width = 4294967301 ∧
    (png_calls (write sample_write_world wide_bitmap).trace).filter PngCall.is_set_IHDR =
      [.set_IHDR 5 1 8 PNG_COLOR_TYPE_RGB PNG_INTERLACE_NONE
        PNG_COMPRESSION_TYPE_BASE PNG_FILTER_TYPE_BASE] ∧
    (png_calls (write sample_write_world wide_bitmap).trace).filter PngCall.is_set_IHDR ≠
      [.set_IHDR wide_bitmap.width wide_bitmap.height 8 PNG_COLOR_TYPE_RGB PNG_INTERLACE_NONE
        PNG_COMPRESSION_TYPE_BASE PNG_FILTER_TYPE_BASE] ∧
    (write sample_write_world wide_bitmap).result = .ok () := by
  decide

/-- C7, amended: when the destination opens and both codec states are created,
for format RGB the one call of `png_set_IHDR` in the trace has the bitmap's
width and height converted to `png_uint_32` (the bitmap's own when they are
below `2^32`), bit depth 8, colour type RGB and no interlacing; for format RGBA
the same with colour type RGBA; for any other format `write` returns
INVALID_FORMAT_ERR and its last codec call is `png_init_io`. So `write` returns
INVALID_FORMAT_ERR if and only if the format is neither RGB nor RGBA. -/
theorem write_format_mapping {FMT : Fmt} (w : WriteWorld) (b : Bitmap FMT)
    (h1 : w.fopen_ok = true) (h2 : w.write_struct_ok = true) (h3 : w.info_struct_ok = true) :
    ((FMT = .RGB ∧ (png_calls (write w b).trace).filter PngCall.is_set_IHDR =
        [.set_IHDR (u32 b.width) (u32 b.height) 8 PNG_COLOR_TYPE_RGB PNG_INTERLACE_NONE
          PNG_COMPRESSION_TYPE_BASE PNG_FILTER_TYPE_BASE]) ∨
      (FMT = .RGBA ∧ (png_calls (write w b).trace).filter PngCall.is_set_IHDR =
        [.set_IHDR (u32 b.width) (u32 b.height) 8 PNG_COLOR_TYPE_RGBA PNG_INTERLACE_NONE
          PNG_COMPRESSION_TYPE_BASE PNG_FILTER_TYPE_BASE]) ∨
      (FMT ≠ .RGB ∧ FMT ≠ .RGBA ∧ (write w b).result = .err .INVALID_FORMAT_ERR ∧
        png_calls (write w b).trace = [.create_write_struct, .create_info_struct, .init_io])) ∧
    (2 ^ 32 ≤ b.width ∨ u32 b.width = b.width) ∧
    (2 ^ 32 ≤ b.height ∨ u32 b.height = b.height) ∧
    ((write w b).result = .err .INVALID_FORMAT_ERR ↔ (FMT ≠ .RGB ∧ FMT ≠ .RGBA)) := by
  have key : ∀ t : List Event,
      (FMT = .RGB ∨ FMT = .RGBA) →
      (png_calls t).filter PngCall.is_set_IHDR = [write.ihdr b] →
      ((FMT = .RGB ∧ (png_calls t).filter PngCall.is_set_IHDR =
        [.set_IHDR (u32 b.width) (u32 b.height) 8 PNG_COLOR_TYPE_RGB PNG_INTERLACE_NONE
          PNG_COMPRESSION_TYPE_BASE PNG_FILTER_TYPE_BASE]) ∨
      (FMT = .RGBA ∧ (png_calls t).filter PngCall.is_set_IHDR =
        [.set_IHDR (u32 b.width) (u32 b.height) 8 PNG_COLOR_TYPE_RGBA PNG_INTERLACE_NONE
          PNG_COMPRESSION_TYPE_BASE PNG_FILTER_TYPE_BASE]) ∨
      (FMT ≠ .RGB ∧ FMT ≠ .RGBA ∧ (write w b).result = .err .INVALID_FORMAT_ERR ∧
        png_calls (write w b).trace =
          [.create_write_struct, .create_info_struct, .init_io])) := by
    intro t hf ht
    rcases hf with hf | hf
    · left
      refine ⟨hf, ?_⟩
      rw [ht]
      subst hf
      simp [write.ihdr, write.color_type]
    · right; left
      refine ⟨hf, ?_⟩
      rw [ht]
      subst hf
      simp [write.ihdr, write.color_type]
  have hcw : 2 ^ 32 ≤ b.width ∨ u32 b.width = b.width := by
    by_cases h : b.width < 2 ^ 32
    · exact Or.inr (Nat.mod_eq_of_lt h)
    · exact Or.inl (Nat.le_of_not_lt h)
  have hch : 2 ^ 32 ≤ b.height ∨ u32 b.height = b.height := by
    by_cases h : b.height < 2 ^ 32
    · exact Or.inr (Nat.mod_eq_of_lt h)
    · exact Or.inl (Nat.le_of_not_lt h)
  rcases write_cases w b with ⟨e1, _⟩ | ⟨_, e2, _⟩ | ⟨_, _, e3, _⟩ |
    ⟨_, _, _, ⟨g1, g2, hr, ht, _⟩ | ⟨hf, ⟨_, hr, ht⟩ | ⟨_, _, hr, ht⟩ | ⟨_, _, _, hr, ht⟩ |
      ⟨_, _, _, _, hr, ht⟩ | ⟨_, _, _, _, hr, ht, _, _⟩⟩⟩
  · rw [h1] at e1; cases e1
  · rw [h2] at e2; cases e2
  · rw [h3] at e3; cases e3
  · exact ⟨Or.inr (Or.inr ⟨g1, g2, hr, by rw [ht]; rfl⟩), hcw, hch, by simp [hr, g1, g2]⟩
  all_goals
    have hn : ¬(FMT ≠ .RGB ∧ FMT ≠ .RGBA) := by
      rcases hf with h | h <;> simp [h]
    refine ⟨key _ hf (by rw [ht]; rfl), hcw, hch, ?_⟩
    rw [hr]
    simp [hn]

/-- The amended format mapping at a 2 x 3 RGB bitmap. -/
theorem write_format_mapping_witness :
    sample_write_world.fopen_ok = true ∧ sample_write_world.write_struct_ok = true ∧
    sample_write_world.info_struct_ok = true ∧
    ((write sample_write_world sample_rgb_bitmap).result = .err .INVALID_FORMAT_ERR ↔
      (Fmt.RGB ≠ .RGB ∧ Fmt.RGB ≠ .RGBA)) :=
  ⟨rfl, rfl, rfl,
    (write_format_mapping sample_write_world sample_rgb_bitmap rfl rfl rfl).2.2.2⟩

/-! ## Runs in which nothing fails -/

/-- When the file opens, both codec states are created, the header is one the
codec accepts and no call raises an error, `load` returns a bitmap. -/
theorem load_of_working (FMT : Fmt) (w : LoadWorld) (h1 : w.fopen_ok = true)
    (h2 : w.read_struct_ok = true) (h3 : w.info_struct_ok = true)
    (hv : png_check_IHDR w.stream.width w.stream.height w.stream.bit_depth
      w.stream.color_type = true) (hf : ∀ c, w.fails c = false) :
    (load FMT w).result =
      .ok ⟨usize (u32 w.stream.width), usize (u32 w.stream.height), w.data_addr⟩ ∧
    (load FMT w).trace = load.opening ++ load.negotiation FMT w.stream ++ load.closing ∧
    (load FMT w).final.vars = load.decoded FMT w := by
  rcases load_cases FMT w with ⟨e1, _⟩ | ⟨_, e2, _⟩ | ⟨_, _, e3, _⟩ |
      ⟨_, _, _, _, hc, _⟩ | ⟨_, _, _, e4, _⟩ | ⟨_, _, _, _, _, hr, ht, hvars⟩
  · rw [h1] at e1; cases e1
  · rw [h2] at e2; cases e2
  · rw [h3] at e3; cases e3
  · rcases hc with hc | ⟨c, hc⟩
    · rw [hv] at hc; cases hc
    · rw [hf c] at hc; cases hc
  · rw [hf _] at e4; cases e4
  · exact ⟨hr, ht, hvars⟩

/-- When the destination opens, both codec states are created, the format is
RGB or RGBA, the header is one the codec accepts and no call raises an error,
`write` succeeds. -/
theorem write_of_working {FMT : Fmt} (w : WriteWorld) (b : Bitmap FMT)
    (h1 : w.fopen_ok = true) (h2 : w.write_struct_ok = true) (h3 : w.info_struct_ok = true)
    (hfmt : FMT = .RGB ∨ FMT = .RGBA)
    (hv : png_check_IHDR (u32 b.width) (u32 b.height) 8 (write.color_type FMT) = true)
    (hf : ∀ c, w.fails c = false) :
    (write w b).result = .ok () ∧ (write w b).dest = some (write.file w b) ∧
    (write w b).final.vars.rows =
      some (row_table b.data b.height (usize (write.info b).rowbytes)) := by
  have hi : write.ihdr_fails w b = false := by
    simp [write.ihdr_fails, hf, hv]
  rcases write_cases w b with ⟨e1, _⟩ | ⟨_, e2, _⟩ | ⟨_, _, e3, _⟩ |
    ⟨_, _, _, ⟨g1, g2, _⟩ | ⟨_, ⟨e, _⟩ | ⟨_, e, _⟩ | ⟨_, _, e, _⟩ |
      ⟨_, _, _, e, _⟩ | ⟨_, _, _, _, hr, _, hd, hrows⟩⟩⟩
  · rw [h1] at e1; cases e1
  · rw [h2] at e2; cases e2
  · rw [h3] at e3; cases e3
  · rcases hfmt with h | h
    · exact absurd h g1
    · exact absurd h g2
  · rw [hi] at e; cases e
  · rw [hf _] at e; cases e
  · rw [hf _] at e; cases e
  · rw [hf _] at e; cases e
  · exact ⟨hr, hd, hrows⟩

/-! ## Lemmas on the rows in memory -/

theorem row_table_getD (data height rowbytes k : Nat) (hk : k < height) :
    (row_table data height rowbytes).getD k 0 = data + row_offset height rowbytes k := by
  rw [List.getD_eq_getElem?_getD, row_table_get data height rowbytes k hk]
  rfl

/-- A byte that lies in none of the rows written keeps its value. -/
theorem png_read_rows_untouched (rows : List Nat) (image : Nat → Nat → Byte)
    (rowbytes n : Nat) (mem : Memory) (p : Nat)
    (h : ∀ k, k < n → p < rows.getD k 0 ∨ rows.getD k 0 + rowbytes ≤ p) :
    png_read_rows rows image rowbytes n mem p = mem p := by
  induction n with
  | zero => rfl
  | succ n ih =>
    show write_row _ _ _ _ p = mem p
    unfold write_row
    have hn := h n (Nat.lt_succ_self n)
    rw [if_neg (by omega)]
    exact ih (fun k hk => h k (Nat.lt_succ_of_lt hk))

/-- The offsets of a table of 65537 rows of 65536 bytes all end at or before `2^32`. -/
theorem tall_offsets (k : Nat) (hk : k < 65537) :
    row_offset 65537 65536 k + 65536 ≤ 4294967296 := by
  unfold row_offset
  rw [row_product_exact (by norm_num) (by norm_num) hk]
  unfold u32
  omega

/-! ## Claims on the row-pointer table and on the rows in memory -/

/-- C10: in `load`, for a height and a row byte count within `png_uint_32` and
an index `i < height`, `height - i - 1` does not wrap, the offset stored for
entry `i` (after its truncation to 32 bits) plus `rowbytes` is at most the size
`height * rowbytes` of the pixel buffer, entry `i` of the table is the base
address plus that offset, the table has `height` entries, and it is empty for
height 0. -/
theorem load_row_pointers_in_buffer (data height rowbytes i : Nat)
    (hh : height < 2 ^ 32) (hr : rowbytes < 2 ^ 32) (hi : i < height) :
    usize_sub (usize_sub height i) 1 = height - i - 1 ∧
    row_offset height rowbytes i + rowbytes ≤ data_size height rowbytes ∧
    data_size height rowbytes = height * rowbytes ∧
    (row_table data height rowbytes)[i]? = some (data + row_offset height rowbytes i) ∧
    (row_table data height rowbytes).length = height ∧
    row_table data 0 rowbytes = [] := by
  have h64 : (2 : Nat) ^ 32 < 2 ^ 64 := by norm_num
  have h1 : usize_sub height i = height - i := usize_sub_of_le (by omega) (le_of_lt hi)
  have h2 : usize_sub (height - i) 1 = height - i - 1 :=
    usize_sub_of_le (by omega) (by omega)
  refine ⟨by rw [h1, h2], ?_, data_size_exact hh hr, row_table_get _ _ _ _ hi,
    row_table_length _ _ _, rfl⟩
  rw [data_size_exact hh hr]
  unfold row_offset
  rw [row_product_exact hh hr hi]
  have h3 : u32 ((height - i - 1) * rowbytes) ≤ (height - i - 1) * rowbytes := u32_le _
  have h4 : (height - i - 1) * rowbytes + rowbytes = (height - i) * rowbytes := by
    have : height - i = (height - i - 1) + 1 := by omega
    rw [this, Nat.add_mul, Nat.one_mul]
    congr 1
  have h5 : (height - i) * rowbytes ≤ height * rowbytes :=
    Nat.mul_le_mul_right _ (Nat.sub_le _ _)
  omega

/-- The bound at 3 rows of 8 bytes, entry 0. -/
theorem load_row_pointers_in_buffer_witness :
    3 < 2 ^ 32 ∧ 8 < 2 ^ 32 ∧ 0 < 3 ∧ row_offset 3 8 0 + 8 ≤ data_size 3 8 :=
  ⟨by norm_num, by norm_num, by norm_num,
    (load_row_pointers_in_buffer 1000 3 8 0 (by norm_num) (by norm_num) (by norm_num)).2.1⟩

/-- C9, at the failing input (an image of 16384 x 65537 RGBA pixels, rows of
65536 bytes): in `load` and in `write` entry 0 of the row-pointer table is the
base address of the pixel buffer itself, the product `(65537 - 0 - 1) * 65536 =
2^32` having been stored in 32 bits, whereas pixel-buffer row 65536 starts
`2^32` bytes further. -/
theorem row_table_entry_wraps :
    (load .RGBA tall_stream_world).final.vars.rows =
      some (row_table tall_stream_world.data_addr 65537 65536) ∧
    (row_table tall_stream_world.data_addr 65537 65536)[0]? =
      some tall_stream_world.data_addr ∧
    (write tall_write_world tall_bitmap).final.vars.rows =
      some (row_table tall_bitmap.data 65537 65536) ∧
    (row_table tall_bitmap.data 65537 65536)[0]? = some tall_bitmap.data ∧
    (65537 - 0 - 1) * 65536 = 4294967296 ∧
    row_offset 65537 65536 0 = 0 := by
  have hl := load_of_working .RGBA tall_stream_world rfl rfl rfl (by decide) (fun _ => rfl)
  have hw := write_of_working tall_write_world tall_bitmap rfl rfl rfl (Or.inr rfl)
    (by decide) (fun _ => rfl)
  have h0 : row_offset 65537 65536 0 = 0 := by decide
  refine ⟨?_, ?_, ?_, ?_, by norm_num, h0⟩
  · rw [hl.2.2]
    rfl
  · rw [row_table_get _ _ _ _ (by norm_num), h0]
    rfl
  · rw [hw.2.2]
    rfl
  · rw [row_table_get _ _ _ _ (by norm_num), h0]
    rfl

/-- Memory after `load` has succeeded on the 16384 x 65537 stream. -/
theorem tall_load_mem (w : LoadWorld) (hs : w.stream = tall_header)
    (hvars : (load .RGBA w).final.vars = load.decoded .RGBA w) :
    (load .RGBA w).mem =
      png_read_rows (row_table w.data_addr 65537 65536) w.image 65536 65537 w.mem := by
  have e1 : (load.updated .RGBA tall_header).rowbytes = 65536 := by decide
  have e2 : (load.updated .RGBA tall_header).height = 65537 := by decide
  have e3 : usize (u32 tall_header.height) = 65537 := by decide
  have e4 : u32 65536 = 65536 := by decide
  show (load .RGBA w).final.vars.mem = _
  rw [hvars]
  show png_read_image (load.updated .RGBA w.stream)
    (row_table w.data_addr (usize (u32 w.stream.height))
      (u32 (load.updated .RGBA w.stream).rowbytes)) w.image w.mem = _
  rw [hs]
  unfold png_read_image
  rw [e1, e2, e3, e4]

/-- After `load` has succeeded on the 16384 x 65537 stream, a byte at or beyond
offset `2^32` of the pixel buffer is what it was before the call. -/
theorem tall_load_untouched (w : LoadWorld) (hs : w.stream = tall_header)
    (hvars : (load .RGBA w).final.vars = load.decoded .RGBA w) (p : Nat)
    (hp : w.data_addr + 4294967296 ≤ p) : (load .RGBA w).mem p = w.mem p := by
  rw [tall_load_mem w hs hvars]
  apply png_read_rows_untouched
  intro k hk
  rw [row_table_getD _ _ _ _ hk]
  have := tall_offsets k hk
  omega

/-- C2, at the failing input (a stream of 16384 x 65537 RGBA pixels, every
byte the codec delivers being 1, memory being 0 before the call): `load`
returns a bitmap, pixel-buffer row 0 starts with the first byte of codec row
65536, but pixel-buffer row 65536 does not start with the first byte of codec
row 0: that byte of the buffer was never written. -/
theorem load_top_row_lost :
    (load .RGBA tall_stream_world).result = .ok ⟨16384, 65537, 2 ^ 40⟩ ∧
    Bitmap.row_byte (⟨16384, 65537, 2 ^ 40⟩ : Bitmap .RGBA)
      (load .RGBA tall_stream_world).mem 0 0 = tall_stream_world.image (65537 - 1 - 0) 0 ∧
    Bitmap.row_byte (⟨16384, 65537, 2 ^ 40⟩ : Bitmap .RGBA)
      (load .RGBA tall_stream_world).mem 65536 0 = 0 ∧
    tall_stream_world.image (65537 - 1 - 65536) 0 = 1 := by
  have hl := load_of_working .RGBA tall_stream_world rfl rfl rfl (by decide) (fun _ => rfl)
  refine ⟨hl.1, ?_, ?_, rfl⟩
  · show (load .RGBA tall_stream_world).mem (2 ^ 40 + 0 * (16384 * 4) + 0) = 1
    rw [tall_load_mem _ rfl hl.2.2]
    show write_row _ ((row_table tall_stream_world.data_addr 65537 65536).getD 65536 0) 65536 _
      (2 ^ 40 + 0 * (16384 * 4) + 0) = 1
    rw [row_table_getD _ _ _ _ (by norm_num)]
    have h0 : row_offset 65537 65536 65536 = 0 := by decide
    rw [h0]
    unfold write_row
    rw [if_pos (by show 2 ^ 40 + 0 ≤ _ ∧ _ < 2 ^ 40 + 0 + 65536; norm_num)]
    rfl
  · show (load .RGBA tall_stream_world).mem (2 ^ 40 + 65536 * (16384 * 4) + 0) = 0
    rw [tall_load_untouched _ rfl hl.2.2 _ (by show 2 ^ 40 + 4294967296 ≤ _; norm_num)]
    rfl

/-- C1, at the failing input (a 16384 x 65537 RGBA bitmap whose bytes are all
1, written and read back, the codec failing nowhere and delivering the rows it
was handed): `write` succeeds, `load` returns a bitmap of the same width and
height, but the byte at offset `2^32` of the new pixel buffer is the 0 that
was in memory before, not the 1 of the bitmap. -/
theorem round_trip_loses_rows :
    (write tall_write_world tall_bitmap).result = .ok () ∧
    (load .RGBA tall_reload_world).result = .ok ⟨16384, 65537, 2 ^ 40⟩ ∧
    tall_memory (tall_bitmap.data + 4294967296) = 1 ∧
    (load .RGBA tall_reload_world).mem (2 ^ 40 + 4294967296) = 0 := by
  have hw := write_of_working tall_write_world tall_bitmap rfl rfl rfl (Or.inr rfl)
    (by decide) (fun _ => rfl)
  have hs : tall_reload_world.stream = tall_header := by
    show ((((write tall_write_world tall_bitmap).dest.getD PngFile.empty).header).getD
      ⟨0, 0, 0, 0, 0⟩) = _
    rw [hw.2.1]
    rfl
  have hv : png_check_IHDR tall_reload_world.stream.width tall_reload_world.stream.height
      tall_reload_world.stream.bit_depth tall_reload_world.stream.color_type = true := by
    rw [hs]
    decide
  have hl := load_of_working .RGBA tall_reload_world rfl rfl rfl hv (fun _ => rfl)
  refine ⟨hw.1, ?_, by decide, ?_⟩
  · rw [hl.1, hs]
    rfl
  · rw [tall_load_untouched _ hs hl.2.2 _ (by show 2 ^ 40 + 4294967296 ≤ _; norm_num)]
    decide

/-! ## What holds while no offset reaches `2^32` -/

/-- While the largest product fits 32 bits, the offset stored for entry `i` is
`(height - i - 1) * rowbytes`. -/
theorem row_offset_exact {height rowbytes i : Nat} (hh : height < 2 ^ 32)
    (hr : rowbytes < 2 ^ 32) (hi : i < height) (hfit : (height - 1) * rowbytes < 2 ^ 32) :
    row_offset height rowbytes i = (height - i - 1) * rowbytes := by
  unfold row_offset
  rw [row_product_exact hh hr hi]
  unfold u32
  apply Nat.mod_eq_of_lt
  have : (height - i - 1) * rowbytes ≤ (height - 1) * rowbytes :=
    Nat.mul_le_mul_right _ (by omega)
  omega

/-- While the largest product fits 32 bits, after the first `n` rows are read
through the table, row `k < n` of the image lies in memory at offset
`(height - 1 - k) * rowbytes` of the buffer. -/
theorem png_read_rows_exact (data height rowbytes : Nat) (image : Nat → Nat → Byte)
    (mem : Memory) (hh : height < 2 ^ 32) (hr : rowbytes < 2 ^ 32)
    (hfit : (height - 1) * rowbytes < 2 ^ 32) (n : Nat) (hn : n ≤ height) (k : Nat)
    (hk : k < n) (j : Nat) (hj : j < rowbytes) :
    png_read_rows (row_table data height rowbytes) image rowbytes n mem
      (data + (height - 1 - k) * rowbytes + j) = image k j := by
  induction n with
  | zero => omega
  | succ n ih =>
    show write_row _ ((row_table data height rowbytes).getD n 0) rowbytes (image n) _ = _
    rw [row_table_getD _ _ _ _ (by omega), row_offset_exact hh hr (by omega) hfit]
    unfold write_row
    have e : height - n - 1 = height - 1 - n := by omega
    rw [e]
    by_cases hkn : k = n
    · subst hkn
      rw [if_pos (by omega)]
      congr 1
      omega
    · have hlt : k < n := by omega
      have h1 : (height - 1 - n + 1) * rowbytes ≤ (height - 1 - k) * rowbytes :=
        Nat.mul_le_mul_right _ (by omega)
      rw [Nat.add_mul, Nat.one_mul] at h1
      rw [if_neg (by omega)]
      exact ih (by omega) hlt

/-- Row-order inversion without wrap-around: when `load<FMT>` (FMT being RGB or
RGBA) returns a bitmap and `(height - 1) * width * bytes_per_pixel FMT` fits 32
bits, pixel-buffer row `k` holds codec row `height - 1 - k`, byte for byte. -/
theorem load_inverts_rows_when_small (FMT : Fmt) (w : LoadWorld) (b : Bitmap FMT)
    (hf : FMT = .RGB ∨ FMT = .RGBA) (hr : (load FMT w).result = .ok b)
    (hfit : (w.stream.height - 1) * (w.stream.width * bytes_per_pixel FMT) < 2 ^ 32)
    (k : Nat) (hk : k < w.stream.height) (j : Nat)
    (hj : j < w.stream.width * bytes_per_pixel FMT) :
    b.row_byte (load FMT w).mem k j = w.image (w.stream.height - 1 - k) j := by
  rcases load_cases FMT w with ⟨_, hr1, _⟩ | ⟨_, _, hr1, _⟩ | ⟨_, _, _, hr1, _⟩ |
      ⟨_, _, _, hr1, _⟩ | ⟨_, _, _, _, _, hr1, _⟩ | ⟨_, _, _, _, hv, hr1, ht, hvars⟩
  · rw [hr1] at hr; cases hr
  · rw [hr1] at hr; cases hr
  · rw [hr1] at hr; cases hr
  · rw [hr1] at hr; cases hr
  · rw [hr1] at hr; cases hr
  obtain ⟨hw, hh, _⟩ := check_IHDR_cases hv
  obtain ⟨_, _, _, hrb, hht⟩ := updated_layout FMT w.stream hf hv
  have hk4 : bytes_per_pixel FMT ≤ 4 := by rcases hf with rfl | rfl <;> decide
  obtain ⟨hm, hu⟩ := rowbytes_of_width hw.2 hk4
  rw [hm] at hrb
  rw [hr1] at hr
  cases hr
  have hmem : (load FMT w).mem =
      png_read_rows (row_table w.data_addr w.stream.height
        (w.stream.width * bytes_per_pixel FMT)) w.image
        (w.stream.width * bytes_per_pixel FMT) w.stream.height w.mem := by
    show (load FMT w).final.vars.mem = _
    rw [hvars]
    show png_read_image (load.updated FMT w.stream)
      (row_table w.data_addr (usize (u32 w.stream.height))
        (u32 (load.updated FMT w.stream).rowbytes)) w.image w.mem = _
    unfold png_read_image
    rw [hrb, hu, hht, small_dim hh.2]
  have h1 : w.stream.width * bytes_per_pixel FMT ≤ 4000000 := by
    calc w.stream.width * bytes_per_pixel FMT ≤ 1000000 * 4 := Nat.mul_le_mul hw.2 hk4
      _ = 4000000 := by norm_num
  have key := png_read_rows_exact w.data_addr w.stream.height
    (w.stream.width * bytes_per_pixel FMT) w.image w.mem (by omega) (by omega) hfit
    w.stream.height (le_refl _) (w.stream.height - 1 - k) (by omega) j hj
  have e : w.stream.height - 1 - (w.stream.height - 1 - k) = k := by omega
  rw [e] at key
  show (load FMT w).mem (w.data_addr + k * (usize (u32 w.stream.width) * bytes_per_pixel FMT)
    + j) = _
  rw [small_dim hw.2, hmem]
  exact key

theorem write_color_type_cases (FMT : Fmt) (hf : FMT = .RGB ∨ FMT = .RGBA) :
    (write.color_type FMT = 2 ∨ write.color_type FMT = 6) ∧
    png_channels (write.color_type FMT) = bytes_per_pixel FMT := by
  rcases hf with rfl | rfl <;> simp +decide [write.color_type, png_channels, bytes_per_pixel,
    PNG_COLOR_TYPE_RGB, PNG_COLOR_TYPE_RGBA, PNG_COLOR_TYPE_RGB_ALPHA, PNG_COLOR_TYPE_GRAY,
    PNG_COLOR_TYPE_PALETTE, PNG_COLOR_TYPE_GRAY_ALPHA]

/-- Round trip without wrap-around: for a bitmap of format RGB or RGBA whose
dimensions the codec accepts and for which `(height - 1) * width *
bytes_per_pixel` fits 32 bits, when the destination opens, the codec fails
nowhere and delivers on reading the rows it was handed on writing, `write`
succeeds and `load` of the file returns a bitmap of the same width and height
whose pixel buffer equals the original byte for byte. -/
theorem round_trip_when_small {FMT : Fmt} (b : Bitmap FMT) (hf : FMT = .RGB ∨ FMT = .RGBA)
    (mem mem2 : Memory) (dest : Option PngFile) (addr : Nat)
    (hw : 0 < b.width ∧ b.width ≤ 1000000) (hh : 0 < b.height ∧ b.height ≤ 1000000)
    (hfit : (b.height - 1) * (b.width * bytes_per_pixel FMT) < 2 ^ 32) :
    (write (WriteWorld.working mem dest) b).result = .ok () ∧
    (load FMT (LoadWorld.reading
      ((write (WriteWorld.working mem dest) b).dest.getD PngFile.empty) addr mem2)).result =
      .ok ⟨b.width, b.height, addr⟩ ∧
    ∀ p, p < b.width * b.height * bytes_per_pixel FMT →
      (load FMT (LoadWorld.reading
        ((write (WriteWorld.working mem dest) b).dest.getD PngFile.empty) addr mem2)).mem
        (addr + p) = mem (b.data + p) := by
  obtain ⟨hct, hch⟩ := write_color_type_cases FMT hf
  have hk4 : bytes_per_pixel FMT ≤ 4 := by rcases hf with rfl | rfl <;> decide
  have hk3 : 3 ≤ bytes_per_pixel FMT := by rcases hf with rfl | rfl <;> decide
  have ew : u32 b.width = b.width := Nat.mod_eq_of_lt (by omega)
  have eh : u32 b.height = b.height := Nat.mod_eq_of_lt (by omega)
  have hv : png_check_IHDR (u32 b.width) (u32 b.height) 8 (write.color_type FMT) = true := by
    rw [ew, eh]
    rcases hct with h | h <;> rw [h] <;>
      simp +decide [png_check_IHDR, PNG_UINT_31_MAX, PNG_USER_WIDTH_MAX, PNG_USER_HEIGHT_MAX] <;>
      omega
  obtain ⟨h1, h2, _⟩ := write_of_working (WriteWorld.working mem dest) b rfl rfl rfl hf hv
    (fun _ => rfl)
  obtain ⟨hm, hu⟩ := rowbytes_of_width hw.2 hk4
  have hrb : (write.info b).rowbytes = b.width * bytes_per_pixel FMT := by
    show PNG_ROWBYTES ((png_channels (write.color_type FMT) * 8) % 256) (u32 b.width) = _
    rw [hch, ew]
    rcases hf with rfl | rfl <;> simp [PNG_ROWBYTES, bytes_per_pixel] at hm ⊢ <;> exact hm
  have hsz : usize (b.width * bytes_per_pixel FMT) = b.width * bytes_per_pixel FMT := by
    have := Nat.mul_le_mul hw.2 hk4
    exact usize_of_lt (by omega)
  rw [h2]
  set w2 : LoadWorld := LoadWorld.reading ((some (write.file (WriteWorld.working mem dest) b)).getD
    PngFile.empty) addr mem2 with hw2
  have hs : w2.stream = png_header.mk b.width b.height 8 (write.color_type FMT) 0 := by
    show (write.info b).header = _
    show png_header.mk (u32 b.width) (u32 b.height) 8 (write.color_type FMT) 0 = _
    rw [ew, eh]
  have hv2 : png_check_IHDR w2.stream.width w2.stream.height w2.stream.bit_depth
      w2.stream.color_type = true := by
    rw [hs]
    rw [ew, eh] at hv
    exact hv
  obtain ⟨hr, _, _⟩ := load_of_working FMT w2 rfl rfl rfl hv2 (fun _ => rfl)
  have hres : (load FMT w2).result = .ok ⟨b.width, b.height, addr⟩ := by
    rw [hr, hs]
    show Result.ok (Bitmap.mk (usize (u32 b.width)) (usize (u32 b.height)) addr) = _
    rw [small_dim hw.2, small_dim hh.2]
  refine ⟨h1, hres, fun p hp => ?_⟩
  have hrbpos : 0 < b.width * bytes_per_pixel FMT := Nat.mul_pos hw.1 (by omega)
  have hfit2 : (w2.stream.height - 1) * (w2.stream.width * bytes_per_pixel FMT) < 2 ^ 32 := by
    rw [hs]; exact hfit
  have hp2 : p < b.height * (b.width * bytes_per_pixel FMT) := by
    calc p < b.width * b.height * bytes_per_pixel FMT := hp
      _ = b.height * (b.width * bytes_per_pixel FMT) := by ring
  obtain ⟨q, r, hq, hr, rfl⟩ : ∃ q r, q < b.height ∧ r < b.width * bytes_per_pixel FMT ∧
      p = q * (b.width * bytes_per_pixel FMT) + r :=
    ⟨p / (b.width * bytes_per_pixel FMT), p % (b.width * bytes_per_pixel FMT),
      Nat.div_lt_of_lt_mul (by rw [Nat.mul_comm]; exact hp2), Nat.mod_lt _ hrbpos,
      by rw [Nat.mul_comm]; exact (Nat.div_add_mod p _).symm⟩
  have key := load_inverts_rows_when_small FMT w2 ⟨b.width, b.height, addr⟩ hf hres hfit2
    q (by rw [hs]; exact hq) r (by rw [hs]; exact hr)
  have hL : (⟨b.width, b.height, addr⟩ : Bitmap FMT).row_byte (load FMT w2).mem q r =
      (load FMT w2).mem (addr + (q * (b.width * bytes_per_pixel FMT) + r)) := by
    show (load FMT w2).mem (addr + q * (b.width * bytes_per_pixel FMT) + r) = _
    rw [Nat.add_assoc]
  rw [hL] at key
  rw [key, hs]
  show png_write_image (row_table b.data b.height (usize (write.info b).rowbytes)) mem
    (b.height - 1 - q) r = _
  unfold png_write_image
  have hR : b.width * bytes_per_pixel FMT ≤ 4000000 := by
    calc b.width * bytes_per_pixel FMT ≤ 1000000 * 4 := Nat.mul_le_mul hw.2 hk4
      _ = 4000000 := by norm_num
  rw [hrb, hsz, row_table_getD _ _ _ _ (by omega),
    row_offset_exact (by omega) (by omega) (by omega) hfit]
  have e : b.height - (b.height - 1 - q) - 1 = q := by omega
  rw [e, Nat.add_assoc]

end rose
